import Mathlib

set_option maxRecDepth 20000

/-!
Verification development for the OCR-App text-to-coordinate pipeline.

This file is a shallow embedding of the repository's core:
* `src/gps_extractor.py` — the `GPSExtractor` class: pattern bank,
  exclusion bank, candidate validation, extraction, confidence labels,
  and the decimal → EXIF-rational geodetic codec;
* `src/ocr_worker.py` — the detection merge engine
  (`_merge_detections`, `_boxes_overlap`, `_text_similar`).

Modelling conventions:
* Python machine floats are modelled as exact fractions (`Frac`, an
  unnormalized integer numerator over a positive natural denominator).
  Every float reaching a comparison in this pipeline is built from short
  decimal literals and ratios of them; no property proved here depends on
  a comparison within the floating-point representation error of its
  operands (e.g. the text-similarity value 15/16 versus the 0.8
  threshold).  `Frac.val` maps a fraction to its rational value, and the
  headline theorems are stated through `Frac.val` over `ℚ`.
* Python regular expressions (all compiled with `re.IGNORECASE` in the
  source) are embedded as an explicit backtracking matcher (`Rx`,
  `reMatch`) implementing leftmost-greedy semantics with capture groups,
  and `re.finditer` as `findAll`.
* `str(float)` digit counting (used by the precision-context rule) is
  modelled on the exact decimal expansion: a terminating decimal of `k ≤
  20` places counts `k` digits, an integral float counts 1 (Python prints
  `"14.0"`), and a non-terminating value counts 17 (the length of the
  shortest round-trip repr of a double); values below `1e-4` print in
  exponent notation and so contain no `'.'`.
-/

/-- Exact model of a Python float: an unnormalized fraction with a
positive denominator. -/
structure Frac where
  num : Int
  den : Nat
  dpos : 0 < den

instance : DecidableEq Frac := fun a b =>
  if h : a.num = b.num ∧ a.den = b.den then
    isTrue (by
      obtain ⟨a1, a2, a3⟩ := a
      obtain ⟨b1, b2, b3⟩ := b
      simp only at h
      simp [h.1, h.2])
  else
    isFalse (fun e => h (by cases e; exact ⟨rfl, rfl⟩))

def Frac.ofInt (n : Int) : Frac := ⟨n, 1, Nat.one_pos⟩

def Frac.ofNat (n : Nat) : Frac := ⟨(n : Int), 1, Nat.one_pos⟩

def Frac.add (a b : Frac) : Frac :=
  ⟨a.num * (b.den : Int) + b.num * (a.den : Int), a.den * b.den, Nat.mul_pos a.dpos b.dpos⟩

def Frac.neg (a : Frac) : Frac := ⟨-a.num, a.den, a.dpos⟩

def Frac.sub (a b : Frac) : Frac := a.add b.neg

def Frac.mul (a b : Frac) : Frac :=
  ⟨a.num * b.num, a.den * b.den, Nat.mul_pos a.dpos b.dpos⟩

/-- Division.  A zero divisor never occurs on any reachable path of the
source (divisors are the constants 60, 3600, powers of ten, and a union
area guarded by `union > 0`); it is mapped to a junk value 0. -/
def Frac.div (a b : Frac) : Frac :=
  if h : b.num = 0 then ⟨0, 1, Nat.one_pos⟩
  else
    ⟨if 0 < b.num then a.num * (b.den : Int) else -(a.num * (b.den : Int)),
     a.den * b.num.natAbs, Nat.mul_pos a.dpos (Int.natAbs_pos.mpr h)⟩

def Frac.abs (a : Frac) : Frac := ⟨(a.num.natAbs : Int), a.den, a.dpos⟩

/-- Value-level `<=` (Python float comparison). -/
def Frac.ble (a b : Frac) : Bool := decide (a.num * (b.den : Int) ≤ b.num * (a.den : Int))

/-- Value-level `<` (Python float comparison). -/
def Frac.blt (a b : Frac) : Bool := decide (a.num * (b.den : Int) < b.num * (a.den : Int))

/-- Value-level `==` (Python float equality). -/
def Frac.beqv (a b : Frac) : Bool := decide (a.num * (b.den : Int) = b.num * (a.den : Int))

/-- Whether the value is an integer; models Python's
`abs(f - round(f)) == 0` and `f == int(f)` tests on floats. -/
def Frac.isInt (a : Frac) : Bool := decide (a.num % (a.den : Int) = 0)

/-- Python `int(f)`: truncation toward zero. -/
def Frac.pyInt (a : Frac) : Int := a.num.tdiv (a.den : Int)

/-- The rational value of a fraction; used only in theorem statements. -/
def Frac.val (a : Frac) : ℚ := (a.num : ℚ) / (a.den : ℚ)

/-- Digits after the point of Python's `str(float)`, modelled on the exact
decimal expansion (see the file header). -/
def Frac.pyDecimals (q : Frac) : Nat :=
  if q.isInt then 1
  else
    match (List.range 21).find? (fun k => (q.mul (Frac.ofNat (Nat.pow 10 k))).isInt) with
    | some k => k
    | none => 17

/-- Whether Python's `str(abs(f))` contains a `'.'`: true unless the value
is nonzero and small (or huge) enough to print in exponent notation. -/
def Frac.hasDotStr (q : Frac) : Bool :=
  q.beqv (Frac.ofInt 0) ||
    ((Frac.mk 1 10000 (by decide)).ble q.abs && q.abs.blt (Frac.ofNat (Nat.pow 10 16)))

/-! ### Characters and Python string helpers -/

def pyUpper (c : Char) : Char := c.toUpper

/-- Python `\s` (ASCII range, sufficient for every reachable input). -/
def isWsC (c : Char) : Bool :=
  c == ' ' || c == '\t' || c == '\n' || c == '\r' || c == '\x0b' || c == '\x0c'

def isDigC (c : Char) : Bool := c.isDigit

/-- Python `\w` (ASCII range). -/
def isWordC (c : Char) : Bool := c.isAlphanum || c == '_'

/-- Case-insensitive single-character test (`re.IGNORECASE`). -/
def chIC (a : Char) : Char → Bool := fun c => c.toLower == a.toLower

def inClass (s : String) : Char → Bool := fun c => s.toList.contains c

/-- Case-insensitive character class (`re.IGNORECASE`). -/
def inClassIC (s : String) : Char → Bool :=
  fun c => (s.toList.map Char.toLower).contains c.toLower

def toCs (s : String) : List Char := s.toList

def upperCs (s : List Char) : List Char := s.map pyUpper

/-- Python `str.strip()`. -/
def stripCs (s : List Char) : List Char :=
  ((s.dropWhile isWsC).reverse.dropWhile isWsC).reverse

/-- Python substring containment `needle in hay`. -/
def containsSub (hay needle : List Char) : Bool :=
  hay.tails.any (fun t => needle.isPrefixOf t)

def wordCountAux : Bool → List Char → Nat
  | _, [] => 0
  | inw, c :: rest =>
    if isWsC c then wordCountAux false rest
    else (if inw then 0 else 1) + wordCountAux true rest

/-- `len(text.split())`: number of maximal non-whitespace runs. -/
def wordCount (s : List Char) : Nat := wordCountAux false s

/-! ### Regular expressions: backtracking engine with capture groups

The constructors mirror exactly the features used by the source's
patterns: character classes, concatenation, ordered alternation, greedy
`?`, greedy counted repetition of a character class (`{m,n}`, `*`, `+`
are only ever applied to single-character classes in the source), and
numbered capture groups. -/

inductive Rx where
  | eps : Rx
  | cls : (Char → Bool) → Rx
  | seq : Rx → Rx → Rx
  | alt : Rx → Rx → Rx
  | opt : Rx → Rx
  | rep : (Char → Bool) → Nat → Option Nat → Rx
  | grp : Nat → Rx → Rx

structure MRes where
  rest : List Char
  groups : List (Nat × List Char)

/-- Greedy bounded/unbounded repetition of a character class, with
backtracking into the continuation `k`. -/
def repMatch (p : Char → Bool) :
    Nat → Option Nat → List Char → List (Nat × List Char) →
    (List Char → List (Nat × List Char) → Option MRes) → Option MRes
  | lo, _, [], g, k => if lo = 0 then k [] g else none
  | lo, hi, c :: rest, g, k =>
    let canMore : Bool := match hi with | some 0 => false | _ => true
    let tryMore :=
      if canMore && p c then
        repMatch p (lo - 1) (hi.map (fun n => n - 1)) rest g k
      else none
    match tryMore with
    | some m => some m
    | none => if lo = 0 then k (c :: rest) g else none

/-- Leftmost-greedy backtracking matcher in continuation-passing style;
`g` accumulates capture groups (a binding added when the group closes,
discarded automatically on backtracking). -/
def reMatch : Rx → List Char → List (Nat × List Char) →
    (List Char → List (Nat × List Char) → Option MRes) → Option MRes
  | Rx.eps, s, g, k => k s g
  | Rx.cls p, s, g, k =>
    match s with
    | [] => none
    | c :: rest => if p c then k rest g else none
  | Rx.seq a b, s, g, k => reMatch a s g (fun s1 g1 => reMatch b s1 g1 k)
  | Rx.alt a b, s, g, k =>
    match reMatch a s g k with
    | some m => some m
    | none => reMatch b s g k
  | Rx.opt a, s, g, k =>
    match reMatch a s g k with
    | some m => some m
    | none => k s g
  | Rx.rep p lo hi, s, g, k => repMatch p lo hi s g k
  | Rx.grp i a, s, g, k =>
    reMatch a s g (fun s1 g1 => k s1 ((i, s.take (s.length - s1.length)) :: g1))

structure PyMatch where
  whole : List Char
  groups : List (Nat × List Char)

def tryMatch (r : Rx) (s : List Char) : Option MRes :=
  reMatch r s [] (fun rest g => some ⟨rest, g⟩)

/-- `re.finditer`: scan left to right, yield non-overlapping matches,
resuming after each match (advancing one position past an empty match —
no source pattern can match empty, the case is only for totality).  The
fuel starts at `length + 1` and every step consumes at least one
character or one unit of fuel. -/
def findAllAux (r : Rx) : Nat → List Char → List PyMatch
  | 0, _ => []
  | Nat.succ fuel, s =>
    match tryMatch r s with
    | some m =>
      let consumed := s.length - m.rest.length
      let pm : PyMatch := ⟨s.take consumed, m.groups⟩
      if consumed = 0 then
        match s with
        | [] => [pm]
        | _ :: tail => pm :: findAllAux r fuel tail
      else pm :: findAllAux r fuel m.rest
    | none =>
      match s with
      | [] => []
      | _ :: tail => findAllAux r fuel tail

def findAll (r : Rx) (s : List Char) : List PyMatch :=
  findAllAux r (s.length + 1) s

/-- `re.search` used as a boolean test. -/
def reSearch (r : Rx) (s : List Char) : Bool :=
  s.tails.any (fun t => (tryMatch r t).isSome)

/-- `match.groups()[i]` (0-based, `None` for an unmatched optional
group). -/
def PyMatch.grp? (m : PyMatch) (i : Nat) : Option (List Char) :=
  (m.groups.find? (fun p => p.1 == i)).map (fun p => p.2)

/-! ### Regex building blocks -/

def cat (l : List Rx) : Rx := l.foldr Rx.seq Rx.eps

def alts : List Rx → Rx
  | [] => Rx.eps
  | [r] => r
  | r :: rs => Rx.alt r (alts rs)

/-- Case-insensitive literal string. -/
def litIC (s : String) : Rx := cat (s.toList.map (fun a => Rx.cls (chIC a)))

def ws0 : Rx := Rx.rep isWsC 0 none

def ws1 : Rx := Rx.rep isWsC 1 none

/-! ### The GPS pattern bank (`GPSExtractor.gps_patterns`)

Transcribed pattern by pattern from `src/gps_extractor.py`.  There,
`self.degree_symbols = r'[°º˚o0]|deg(?:rees?)?'` and every pattern is
matched with `re.IGNORECASE` (so the class also accepts `O`, and literals
accept both cases). -/

/-- `[°º˚o0]|deg(?:rees?)?` -/
def degSym : Rx :=
  Rx.alt (Rx.cls (inClassIC "°º˚o0"))
    (Rx.seq (litIC "deg") (Rx.opt (Rx.seq (litIC "ree") (Rx.opt (Rx.cls (chIC 's'))))))

/-- `(?:degsym\s*)` -/
def degWs : Rx := Rx.seq degSym ws0

/-- `(?:degsym\s*)?` -/
def degWsOpt : Rx := Rx.opt degWs

/-- `,?` -/
def commaOpt : Rx := Rx.opt (Rx.cls (inClass ","))

/-- `[:\s]*` -/
def colonWs : Rx := Rx.rep (fun c => c == ':' || isWsC c) 0 none

/-- `['′\s]+` -/
def minSep1 : Rx := Rx.rep (fun c => c == '\x27' || c == '′' || isWsC c) 1 none

/-- `['′\s]*` -/
def minSep0 : Rx := Rx.rep (fun c => c == '\x27' || c == '′' || isWsC c) 0 none

/-- `["″\s]*` -/
def secSep0 : Rx := Rx.rep (fun c => c == '\x22' || c == '″' || isWsC c) 0 none

/-- `[+-]?` -/
def sgnOpt : Rx := Rx.opt (Rx.cls (inClass "+-"))

/-- `(?:\.\d{1,8})?` -/
def fr18 : Rx := Rx.opt (Rx.seq (Rx.cls (inClass ".")) (Rx.rep isDigC 1 (some 8)))

/-- `(?:\.\d+)?` -/
def frP : Rx := Rx.opt (Rx.seq (Rx.cls (inClass ".")) (Rx.rep isDigC 1 none))

/-- `([+-]?\d{1,2}(?:\.\d{1,8})?)` as group `i` -/
def numLat18 (i : Nat) : Rx := Rx.grp i (cat [sgnOpt, Rx.rep isDigC 1 (some 2), fr18])

/-- `([+-]?\d{1,3}(?:\.\d{1,8})?)` as group `i` -/
def numLon18 (i : Nat) : Rx := Rx.grp i (cat [sgnOpt, Rx.rep isDigC 1 (some 3), fr18])

/-- `(\d{1,2})` as group `i` -/
def numD2 (i : Nat) : Rx := Rx.grp i (Rx.rep isDigC 1 (some 2))

/-- `(\d{1,3})` as group `i` -/
def numD3 (i : Nat) : Rx := Rx.grp i (Rx.rep isDigC 1 (some 3))

/-- `(\d{1,2}(?:\.\d+)?)` as group `i` -/
def secG (i : Nat) : Rx := Rx.grp i (Rx.seq (Rx.rep isDigC 1 (some 2)) frP)

/-- `(\d{1,2}\.\d+)` as group `i` -/
def secFG (i : Nat) : Rx :=
  Rx.grp i (cat [Rx.rep isDigC 1 (some 2), Rx.cls (inClass "."), Rx.rep isDigC 1 none])

/-- `(\d{1,2}\.?\d*)` as group `i` -/
def dmMinG (i : Nat) : Rx :=
  Rx.grp i (cat [Rx.rep isDigC 1 (some 2), Rx.opt (Rx.cls (inClass ".")), Rx.rep isDigC 0 none])

/-- `([+-]?\d{1,2}\.?\d{0,8})` as group `i` -/
def decNum2 (i : Nat) : Rx :=
  Rx.grp i (cat [sgnOpt, Rx.rep isDigC 1 (some 2), Rx.opt (Rx.cls (inClass ".")),
    Rx.rep isDigC 0 (some 8)])

/-- `([+-]?\d{1,3}\.?\d{0,8})` as group `i` -/
def decNum3 (i : Nat) : Rx :=
  Rx.grp i (cat [sgnOpt, Rx.rep isDigC 1 (some 3), Rx.opt (Rx.cls (inClass ".")),
    Rx.rep isDigC 0 (some 8)])

/-- `([+-]?\d{1,2}\.\d{4,8})` as group `i` -/
def pd2 (i : Nat) : Rx :=
  Rx.grp i (cat [sgnOpt, Rx.rep isDigC 1 (some 2), Rx.cls (inClass "."),
    Rx.rep isDigC 4 (some 8)])

/-- `([+-]?\d{1,3}\.\d{4,8})` as group `i` -/
def pd3 (i : Nat) : Rx :=
  Rx.grp i (cat [sgnOpt, Rx.rep isDigC 1 (some 3), Rx.cls (inClass "."),
    Rx.rep isDigC 4 (some 8)])

/-- `([NS])` as group `i` -/
def nsG (i : Nat) : Rx := Rx.grp i (Rx.cls (inClassIC "NS"))

/-- `([EW])` as group `i` -/
def ewG (i : Nat) : Rx := Rx.grp i (Rx.cls (inClassIC "EW"))

/-- `[°º˚o]` (the spaced-DMS class, without the digit 0) -/
def degC4 : Rx := Rx.cls (inClassIC "°º˚o")

/-- `[′']` -/
def minC : Rx := Rx.cls (fun c => c == '′' || c == '\x27')

/-- `[″"]` -/
def secC : Rx := Rx.cls (fun c => c == '″' || c == '\x22')

/-- Priority 10, type `labeled`:
`(?:GPS|COORDINATES?)[:\s]*\(?(lat)(?:degsym\s*)?,?\s*(lon)(?:degsym\s*)?\)?` -/
def pLabeled : Rx := cat [
  Rx.alt (litIC "GPS") (Rx.seq (litIC "COORDINATE") (Rx.opt (Rx.cls (chIC 's')))),
  colonWs, Rx.opt (Rx.cls (inClass "(")),
  numLat18 0, degWsOpt, commaOpt, ws0, numLon18 1, degWsOpt,
  Rx.opt (Rx.cls (inClass ")"))]

/-- Priority 9, type `lat_lon`:
`(?:LAT|Lat|LATITUDE)[:\s]*(lat)(?:degsym\s*)?([NS])?\s*,?\s*(?:LON|Long|LONGITUDE)[:\s]*(lon)(?:degsym\s*)?([EW])?` -/
def pLatLon : Rx := cat [
  alts [litIC "LAT", litIC "Lat", litIC "LATITUDE"],
  colonWs, numLat18 0, degWsOpt, Rx.opt (nsG 1), ws0, commaOpt, ws0,
  alts [litIC "LON", litIC "Long", litIC "LONGITUDE"],
  colonWs, numLon18 2, degWsOpt, Rx.opt (ewG 3)]

/-- Priority 9, type `dms_dir_first`:
`([NS])\s*(\d{1,2})(?:degsym\s*)(\d{1,2})['′\s]+(\d{1,2}(?:\.\d+)?)["″\s]*,?\s*([EW])\s*(\d{1,3})(?:degsym\s*)(\d{1,2})['′\s]+(\d{1,2}(?:\.\d+)?)["″\s]*` -/
def pDmsDirFirst : Rx := cat [
  nsG 0, ws0, numD2 1, degWs, numD2 2, minSep1, secG 3, secSep0,
  commaOpt, ws0, ewG 4, ws0, numD3 5, degWs, numD2 6, minSep1, secG 7, secSep0]

/-- Priority 9, type `dms_dir_last`:
`(\d{1,2})(?:degsym\s*)(\d{1,2})['′\s]+(\d{1,2}(?:\.\d+)?)["″\s]*([NS])\s*,?\s*(\d{1,3})(?:degsym\s*)(\d{1,2})['′\s]+(\d{1,2}(?:\.\d+)?)["″\s]*([EW])` -/
def pDmsDirLast : Rx := cat [
  numD2 0, degWs, numD2 1, minSep1, secG 2, secSep0, nsG 3, ws0, commaOpt, ws0,
  numD3 4, degWs, numD2 5, minSep1, secG 6, secSep0, ewG 7]

/-- Priority 8, type `dm_dir_first`:
`([NS])\s*(\d{1,2})(?:degsym\s*)(\d{1,2}\.?\d*)['′\s]*,?\s*([EW])\s*(\d{1,3})(?:degsym\s*)(\d{1,2}\.?\d*)['′\s]*` -/
def pDmDirFirst : Rx := cat [
  nsG 0, ws0, numD2 1, degWs, dmMinG 2, minSep0, commaOpt, ws0,
  ewG 3, ws0, numD3 4, degWs, dmMinG 5, minSep0]

/-- Priority 8, type `dm_dir_last`:
`(\d{1,2})(?:degsym\s*)(\d{1,2}\.?\d*)['′\s]*([NS])\s*,?\s*(\d{1,3})(?:degsym\s*)(\d{1,2}\.?\d*)['′\s]*([EW])` -/
def pDmDirLast : Rx := cat [
  numD2 0, degWs, dmMinG 1, minSep0, nsG 2, ws0, commaOpt, ws0,
  numD3 3, degWs, dmMinG 4, minSep0, ewG 5]

/-- Priority 7, type `decimal_dir_separate`:
`([NS])\s*([+-]?\d{1,2}\.?\d{0,8})(?:degsym\s*)?,?\s*([EW])\s*([+-]?\d{1,3}\.?\d{0,8})(?:degsym\s*)?` -/
def pDecDirSep : Rx := cat [
  nsG 0, ws0, decNum2 1, degWsOpt, commaOpt, ws0, ewG 2, ws0, decNum3 3, degWsOpt]

/-- Priority 7, type `decimal_dir_attached`:
`([+-]?\d{1,2}\.?\d{0,8})(?:degsym\s*)?([NS])\s*,?\s*([+-]?\d{1,3}\.?\d{0,8})(?:degsym\s*)?([EW])` -/
def pDecDirAtt : Rx := cat [
  decNum2 0, degWsOpt, nsG 1, ws0, commaOpt, ws0, decNum3 2, degWsOpt, ewG 3]

/-- Priority 5, type `pure_decimal`:
`([+-]?\d{1,2}\.\d{4,8})(?:degsym\s*)?,?\s*([+-]?\d{1,3}\.\d{4,8})(?:degsym\s*)?` -/
def pPureDec : Rx := cat [pd2 0, degWsOpt, commaOpt, ws0, pd3 1, degWsOpt]

/-- Priority 8, type `dms_spaced`:
`([NS])\s*(\d{1,2})\s*[°º˚o]\s*(\d{1,2})\s*[′']\s*(\d{1,2}\.\d+)\s*[″"]\s*([EW])\s*(\d{1,3})\s*[°º˚o]\s*(\d{1,2})\s*[′']\s*(\d{1,2}\.\d+)\s*[″"]` -/
def pDmsSpaced : Rx := cat [
  nsG 0, ws0, numD2 1, ws0, degC4, ws0, numD2 2, ws0, minC, ws0, secFG 3, ws0, secC, ws0,
  ewG 4, ws0, numD3 5, ws0, degC4, ws0, numD2 6, ws0, minC, ws0, secFG 7, ws0, secC]

/-- Priority 8, type `dms_spaced_reversed`:
`(\d{1,2})\s*[°º˚o]\s*(\d{1,2})\s*[′']\s*(\d{1,2}\.\d+)\s*[″"]\s*([NS])\s*(\d{1,3})\s*[°º˚o]\s*(\d{1,2})\s*[′']\s*(\d{1,2}\.\d+)\s*[″"]\s*([EW])` -/
def pDmsSpacedRev : Rx := cat [
  numD2 0, ws0, degC4, ws0, numD2 1, ws0, minC, ws0, secFG 2, ws0, secC, ws0, nsG 3, ws0,
  numD3 4, ws0, degC4, ws0, numD2 5, ws0, minC, ws0, secFG 6, ws0, secC, ws0, ewG 7]

/-- Priority 9, type `dms_comma_separated`:
`([NS])\s+(\d{1,2})°\s+(\d{1,2})'\s+(\d{1,2}\.\d+)"\s*,\s*([EW])\s+(\d{1,3})°\s+(\d{1,2})'\s+(\d{1,2}\.\d+)"` -/
def pDmsComma : Rx := cat [
  nsG 0, ws1, numD2 1, Rx.cls (inClass "°"), ws1, numD2 2, Rx.cls (fun c => c == '\x27'),
  ws1, secFG 3, Rx.cls (fun c => c == '\x22'), ws0, Rx.cls (inClass ","), ws0,
  ewG 4, ws1, numD3 5, Rx.cls (inClass "°"), ws1, numD2 6, Rx.cls (fun c => c == '\x27'),
  ws1, secFG 7, Rx.cls (fun c => c == '\x22')]

/-- One entry of `self.gps_patterns`: matcher, fixed priority, format tag. -/
structure PatternRule where
  pattern : Rx
  priority : Nat
  ptype : String

/-- `self.gps_patterns`, in source order. -/
def gps_patterns : List PatternRule := [
  ⟨pLabeled, 10, "labeled"⟩,
  ⟨pLatLon, 9, "lat_lon"⟩,
  ⟨pDmsDirFirst, 9, "dms_dir_first"⟩,
  ⟨pDmsDirLast, 9, "dms_dir_last"⟩,
  ⟨pDmDirFirst, 8, "dm_dir_first"⟩,
  ⟨pDmDirLast, 8, "dm_dir_last"⟩,
  ⟨pDecDirSep, 7, "decimal_dir_separate"⟩,
  ⟨pDecDirAtt, 7, "decimal_dir_attached"⟩,
  ⟨pPureDec, 5, "pure_decimal"⟩,
  ⟨pDmsSpaced, 8, "dms_spaced"⟩,
  ⟨pDmsSpacedRev, 8, "dms_spaced_reversed"⟩,
  ⟨pDmsComma, 9, "dms_comma_separated"⟩]

/-! ### The exclusion bank (`GPSExtractor.exclusion_patterns`)

All 142 "this is not a coordinate" patterns from the source, in order.
They are searched (via `re.search` with `re.IGNORECASE`) against the
upper-cased, stripped text. -/

/-- `[\d.]+` -/
def numDotP : Rx := Rx.rep (fun c => isDigC c || c == '.') 1 none

/-- `[\d,.]+` -/
def numDotCommaP : Rx := Rx.rep (fun c => isDigC c || c == ',' || c == '.') 1 none

/-- `[\w]+` (also used for `[\w\d]+`, which denotes the same class) -/
def wordP : Rx := Rx.rep isWordC 1 none

/-- `[\w\d-]+` -/
def wordDashP : Rx := Rx.rep (fun c => isWordC c || c == '-') 1 none

/-- `[\w\d.]+` -/
def wordDotP : Rx := Rx.rep (fun c => isWordC c || c == '.') 1 none

/-- `[\d:.]+` -/
def numColonDotP : Rx := Rx.rep (fun c => isDigC c || c == ':' || c == '.') 1 none

/-- `[\d/]+` -/
def numSlashP : Rx := Rx.rep (fun c => isDigC c || c == '/') 1 none

/-- `\d+` / `[\d]+` -/
def numP : Rx := Rx.rep isDigC 1 none

/-- `[:#]?` -/
def colonHashOpt : Rx := Rx.opt (Rx.cls (inClass ":#"))

/-- `WORD\s*tail` -/
def exKW (w : String) (t : Rx) : Rx := cat [litIC w, ws0, t]

/-- `W1\s*W2\s*tail` -/
def exKW2 (w1 w2 : String) (t : Rx) : Rx := cat [litIC w1, ws0, litIC w2, ws0, t]

/-- `W1\s*W2\s*W3\s*tail` -/
def exKW3 (w1 w2 w3 : String) (t : Rx) : Rx :=
  cat [litIC w1, ws0, litIC w2, ws0, litIC w3, ws0, t]

def exclusion_patterns : List Rx := [
  cat [Rx.rep isDigC 1 (some 2), Rx.cls (inClass ":"), Rx.rep isDigC 2 (some 2),
    Rx.cls (inClass ":"), Rx.rep isDigC 2 (some 2)],
  cat [Rx.rep isDigC 1 (some 2), Rx.cls (inClass ":"), Rx.rep isDigC 2 (some 2), ws0,
    alts [litIC "AM", litIC "PM"]],
  cat [Rx.rep isDigC 2 (some 4), Rx.cls (inClass "-/"), Rx.rep isDigC 1 (some 2),
    Rx.cls (inClass "-/"), Rx.rep isDigC 1 (some 2)],
  cat [Rx.rep isDigC 1 (some 2), Rx.cls (inClass "/"), Rx.rep isDigC 1 (some 2),
    Rx.cls (inClass "/"), Rx.rep isDigC 2 (some 4)],
  cat [numDotP, ws0, alts [litIC "KB", litIC "MB", litIC "GB", litIC "TB", litIC "Kbps",
    litIC "Mbps", litIC "Gbps"]],
  cat [Rx.cls (inClass "$"), numDotCommaP],
  cat [numDotP, ws0, alts [litIC "MM", litIC "CM", litIC "M", litIC "KM", litIC "IN",
    litIC "FT", litIC "YD", litIC "MI"]],
  cat [numDotP, ws0, alts [Rx.cls (inClass "%"), litIC "PERCENT", litIC "PCT"]],
  cat [numDotP, ws0, alts [litIC "V", litIC "VOLT", litIC "A", litIC "AMP", litIC "W",
    litIC "WATT", litIC "OHM"]],
  exKW "ISO" numP,
  cat [Rx.cls (chIC 'F'), Rx.cls (inClass "/\\"), numP],
  cat [numP, ws0, alts [litIC "MP", litIC "MEGAPIXEL", litIC "MPX"]],
  cat [numDotP, ws0, alts [litIC "°C", litIC "°F", litIC "CELSIUS", litIC "FAHRENHEIT",
    litIC "KELVIN"]],
  cat [litIC "SERIAL", ws0, colonHashOpt, ws0, wordDashP],
  cat [litIC "MODEL", ws0, colonHashOpt, ws0, wordDashP],
  cat [litIC "VERSION", ws0, colonHashOpt, ws0, wordDotP],
  exKW2 "FOCAL" "LENGTH" numDotP,
  exKW2 "SHUTTER" "SPEED" numSlashP,
  exKW "APERTURE" numDotP,
  exKW "EXPOSURE" numDotP,
  exKW2 "WHITE" "BALANCE" wordP,
  exKW "RESOLUTION" numDotP,
  exKW "DPI" numP,
  exKW "BITRATE" numDotP,
  exKW "FRAMERATE" numDotP,
  exKW2 "BIT" "DEPTH" numP,
  exKW2 "COLOR" "SPACE" wordP,
  exKW "CHANNELS" numP,
  exKW "COMPRESSION" wordP,
  exKW "DURATION" numColonDotP,
  exKW2 "FILE" "SIZE" numDotP,
  exKW2 "ASPECT" "RATIO" numColonDotP,
  exKW2 "SCAN" "TYPE" wordP,
  exKW "PROFILE" wordP,
  exKW "ENCODER" wordP,
  exKW "DECODER" wordP,
  exKW "FORMAT" wordP,
  exKW "CODEC" wordP,
  exKW2 "BIT" "RATE" numDotP,
  exKW2 "SAMPLE" "RATE" numDotP,
  exKW "CHANNEL" numP,
  exKW "TRACK" numP,
  exKW "STREAM" numP,
  exKW "LAYER" numP,
  exKW2 "PIXEL" "FORMAT" wordP,
  exKW2 "COLOR" "PROFILE" wordP,
  exKW "GAMMA" numDotP,
  exKW "CONTRAST" numDotP,
  exKW "BRIGHTNESS" numDotP,
  exKW "SATURATION" numDotP,
  exKW "HUE" numDotP,
  exKW "SHARPNESS" numDotP,
  exKW2 "NOISE" "REDUCTION" numDotP,
  exKW2 "DYNAMIC" "RANGE" numDotP,
  exKW2 "EXPOSURE" "BIAS" numDotP,
  exKW "FLASH" wordP,
  exKW "LENS" wordP,
  exKW "FILTER" wordP,
  exKW "PRESET" wordP,
  exKW "PRESSURE" numDotP,
  exKW "HUMIDITY" numDotP,
  exKW2 "WIND" "SPEED" numDotP,
  exKW "ALTITUDE" numDotP,
  exKW "DEPTH" numDotP,
  exKW "WEIGHT" numDotP,
  exKW "VOLUME" numDotP,
  exKW "AREA" numDotP,
  exKW "DENSITY" numDotP,
  exKW "VISCOSITY" numDotP,
  exKW "VELOCITY" numDotP,
  exKW "ACCELERATION" numDotP,
  exKW "FORCE" numDotP,
  exKW "ENERGY" numDotP,
  exKW "POWER" numDotP,
  exKW "FREQUENCY" numDotP,
  exKW "WAVELENGTH" numDotP,
  exKW "INTENSITY" numDotP,
  exKW "LUMINANCE" numDotP,
  exKW "ILLUMINANCE" numDotP,
  exKW "RADIANCE" numDotP,
  exKW "IRRADIANCE" numDotP,
  exKW "FLUX" numDotP,
  exKW2 "LUMINOUS" "FLUX" numDotP,
  exKW2 "LUMINOUS" "INTENSITY" numDotP,
  exKW2 "LUMINOUS" "EMITTANCE" numDotP,
  exKW2 "LUMINOUS" "EXPOSURE" numDotP,
  exKW2 "LUMINOUS" "ENERGY" numDotP,
  exKW2 "LUMINOUS" "EFFICACY" numDotP,
  exKW2 "LUMINOUS" "EFFICIENCY" numDotP,
  exKW2 "SPECTRAL" "POWER" numDotP,
  exKW2 "SPECTRAL" "ENERGY" numDotP,
  exKW2 "SPECTRAL" "FLUX" numDotP,
  exKW2 "SPECTRAL" "INTENSITY" numDotP,
  exKW2 "SPECTRAL" "RADIANCE" numDotP,
  exKW2 "SPECTRAL" "IRRADIANCE" numDotP,
  exKW2 "SPECTRAL" "EMITTANCE" numDotP,
  exKW2 "SPECTRAL" "EXPOSURE" numDotP,
  exKW2 "SPECTRAL" "LUMINANCE" numDotP,
  exKW2 "SPECTRAL" "ILLUMINANCE" numDotP,
  exKW3 "SPECTRAL" "LUMINOUS" "FLUX" numDotP,
  exKW3 "SPECTRAL" "LUMINOUS" "INTENSITY" numDotP,
  exKW3 "SPECTRAL" "LUMINOUS" "EMITTANCE" numDotP,
  exKW3 "SPECTRAL" "LUMINOUS" "EXPOSURE" numDotP,
  exKW3 "SPECTRAL" "LUMINOUS" "ENERGY" numDotP,
  exKW3 "SPECTRAL" "LUMINOUS" "EFFICACY" numDotP,
  exKW3 "SPECTRAL" "LUMINOUS" "EFFICIENCY" numDotP,
  exKW2 "PHOTON" "FLUX" numDotP,
  exKW2 "PHOTON" "INTENSITY" numDotP,
  exKW2 "PHOTON" "RADIANCE" numDotP,
  exKW2 "PHOTON" "IRRADIANCE" numDotP,
  exKW2 "PHOTON" "EMITTANCE" numDotP,
  exKW2 "PHOTON" "EXPOSURE" numDotP,
  exKW2 "PHOTON" "ENERGY" numDotP,
  exKW2 "PHOTON" "EFFICACY" numDotP,
  exKW2 "PHOTON" "EFFICIENCY" numDotP,
  exKW2 "QUANTUM" "FLUX" numDotP,
  exKW2 "QUANTUM" "INTENSITY" numDotP,
  exKW2 "QUANTUM" "RADIANCE" numDotP,
  exKW2 "QUANTUM" "IRRADIANCE" numDotP,
  exKW2 "QUANTUM" "EMITTANCE" numDotP,
  exKW2 "QUANTUM" "EXPOSURE" numDotP,
  exKW2 "QUANTUM" "ENERGY" numDotP,
  exKW2 "QUANTUM" "EFFICACY" numDotP,
  exKW2 "QUANTUM" "EFFICIENCY" numDotP,
  exKW2 "RADIOMETRIC" "FLUX" numDotP,
  exKW2 "RADIOMETRIC" "INTENSITY" numDotP,
  exKW2 "RADIOMETRIC" "RADIANCE" numDotP,
  exKW2 "RADIOMETRIC" "IRRADIANCE" numDotP,
  exKW2 "RADIOMETRIC" "EMITTANCE" numDotP,
  exKW2 "RADIOMETRIC" "EXPOSURE" numDotP,
  exKW2 "RADIOMETRIC" "ENERGY" numDotP,
  exKW2 "RADIOMETRIC" "EFFICACY" numDotP,
  exKW2 "RADIOMETRIC" "EFFICIENCY" numDotP,
  exKW2 "PHOTOMETRIC" "FLUX" numDotP,
  exKW2 "PHOTOMETRIC" "INTENSITY" numDotP,
  exKW2 "PHOTOMETRIC" "RADIANCE" numDotP,
  exKW2 "PHOTOMETRIC" "IRRADIANCE" numDotP,
  exKW2 "PHOTOMETRIC" "EMITTANCE" numDotP,
  exKW2 "PHOTOMETRIC" "EXPOSURE" numDotP,
  exKW2 "PHOTOMETRIC" "ENERGY" numDotP,
  exKW2 "PHOTOMETRIC" "EFFICACY" numDotP,
  exKW2 "PHOTOMETRIC" "EFFICIENCY" numDotP]

/-! ### `GPSExtractor.is_false_positive` and
`GPSExtractor.validate_gps_coordinates` -/

/-- The source's `gps_keywords` list, verbatim (including the
mixed-case entries `'Lat'` and `'Long'`, which can never match the
upper-cased text but are kept for fidelity). -/
def gps_keywords : List (List Char) :=
  [toCs "GPS", toCs "COORD", toCs "LAT", toCs "Lat", toCs "LON", toCs "Long",
   toCs "LATITUDE", toCs "LONGITUDE", toCs "MAP", toCs "LOCATION", toCs "POSITION"]

/-- `GPSExtractor.is_false_positive`: keyword override, then the
exclusion bank, then the colon heuristic and the long-text heuristic
(both on the original, un-uppercased text, as in the source). -/
def is_false_positive (text : List Char) : Bool :=
  let text_upper := stripCs (upperCs text)
  if gps_keywords.any (fun k => containsSub text_upper k) then false
  else if exclusion_patterns.any (fun p => reSearch p text_upper) then true
  else if containsSub text (toCs ":") &&
      !([toCs "LAT", toCs "LON", toCs "GPS"].any (fun k => containsSub text k)) then true
  else if decide (wordCount text > 5) &&
      !([toCs "°", toCs "º", toCs "deg", [Char.ofNat 39], [Char.ofNat 34]].any
          (fun k => containsSub text k)) then true
  else false

/-- `['N','S','E','W','GPS','LAT','LON','COORD']` tested against
`source_text.upper()`. -/
def has_gps_context (src : List Char) : Bool :=
  [toCs "N", toCs "S", toCs "E", toCs "W", toCs "GPS", toCs "LAT", toCs "LON",
   toCs "COORD"].any (fun k => containsSub (upperCs src) k)

/-- The precision-context block of `validate_gps_coordinates`: runs only
when both `str(abs(·))` contain a dot; yields `true` when the candidate
must be rejected. -/
def precision_reject (lat lon : Frac) (src : List Char) : Bool :=
  if lat.hasDotStr && lon.hasDotStr then
    if !(has_gps_context src) then
      decide (lat.pyDecimals < 4) || decide (lon.pyDecimals < 4)
    else
      decide (lat.pyDecimals < 2) || decide (lon.pyDecimals < 2)
  else false

/-- `GPSExtractor.validate_gps_coordinates`, check for check in source
order: range, false-positive filter, degenerate small integers,
null island, precision-context rule, equatorial box, Antarctic rule. -/
def validate_gps_coordinates (lat lon : Frac) (source_text : List Char) : Bool :=
  if !((Frac.ofInt (-90)).ble lat && lat.ble (Frac.ofInt 90) &&
       (Frac.ofInt (-180)).ble lon && lon.ble (Frac.ofInt 180)) then false
  else if is_false_positive source_text then false
  else if lat.isInt && lon.isInt && lat.abs.blt (Frac.ofInt 10) &&
      lon.abs.blt (Frac.ofInt 10) then false
  else if lat.beqv (Frac.ofInt 0) && lon.beqv (Frac.ofInt 0) then false
  else if precision_reject lat lon source_text then false
  else if (Frac.ofInt (-30)).blt lat && lat.blt (Frac.ofInt 30) &&
      (Frac.ofInt (-30)).blt lon && lon.blt (Frac.ofInt 30) &&
      !(containsSub (upperCs source_text) (toCs "GPS") ||
        containsSub (upperCs source_text) (toCs "COORD")) then false
  else if lat.blt (Frac.ofInt (-60)) &&
      !(containsSub (upperCs source_text) (toCs "ANTARCTIC")) then false
  else true

/-! ### `GPSExtractor._parse_match` and numeric conversion -/

def digitsValAux : Nat → List Char → Nat
  | acc, [] => acc
  | acc, c :: r => digitsValAux (acc * 10 + (c.toNat - 48)) r

/-- Python `float(s)` on a captured decimal string (optional sign,
integer part, optional fractional part; `"14."` is valid Python). -/
def pyFloat (s : List Char) : Option Frac :=
  let sgn : Int := match s with | '-' :: _ => -1 | _ => 1
  let t : List Char := match s with | '+' :: r => r | '-' :: r => r | r => r
  let ip := t.takeWhile (fun c => c != '.')
  let rest := t.dropWhile (fun c => c != '.')
  let fp : List Char := match rest with | [] => [] | _ :: fr => fr
  if ip.all isDigC && fp.all isDigC && (!ip.isEmpty || !fp.isEmpty) then
    some ⟨sgn * ((digitsValAux 0 ip * Nat.pow 10 fp.length + digitsValAux 0 fp : Nat) : Int),
          Nat.pow 10 fp.length, Nat.pos_pow_of_pos _ (by decide)⟩
  else none

/-- `GPSExtractor._dms_to_decimal`: `degrees + minutes/60 + seconds/3600`. -/
def dms_to_decimal (d m s : Frac) : Frac :=
  (d.add (m.div (Frac.ofInt 60))).add (s.div (Frac.ofInt 3600))

/-- `GPSExtractor._dm_to_decimal`: `degrees + minutes/60`. -/
def dm_to_decimal (d m : Frac) : Frac := d.add (m.div (Frac.ofInt 60))

structure ParsedMatch where
  latitude : Frac
  longitude : Frac
  source_text : List Char

/-- `GPSExtractor._parse_match`: dispatch on the rule's format tag;
any missing group or non-numeric capture makes the candidate `none`
(the source's `try/except`).  Hemisphere letters are compared to the
upper-case `'S'`/`'W'` exactly, as in the source. -/
def parse_match (m : PyMatch) (ptype : String) : Option ParsedMatch :=
  if ptype == "labeled" then do
    let g0 ← m.grp? 0
    let lat ← pyFloat g0
    let g1 ← m.grp? 1
    let lon ← pyFloat g1
    pure ⟨lat, lon, stripCs m.whole⟩
  else if ptype == "lat_lon" then do
    let g0 ← m.grp? 0
    let lat0 ← pyFloat g0
    let latDir := m.grp? 1
    let g2 ← m.grp? 2
    let lon0 ← pyFloat g2
    let lonDir := m.grp? 3
    let up := upperCs m.whole
    let lat := if latDir == some [Char.ofNat 83] ||
        (latDir == none && (Frac.ofInt 0).blt lat0 && containsSub up [Char.ofNat 83]) then
        lat0.neg else lat0
    let lon := if lonDir == some [Char.ofNat 87] ||
        (lonDir == none && (Frac.ofInt 0).blt lon0 && containsSub up [Char.ofNat 87]) then
        lon0.neg else lon0
    pure ⟨lat, lon, stripCs m.whole⟩
  else if ptype == "dms_dir_first" || ptype == "dms_comma_separated" then do
    let g0 ← m.grp? 0
    let d1 ← (m.grp? 1).bind pyFloat
    let m1 ← (m.grp? 2).bind pyFloat
    let s1 ← (m.grp? 3).bind pyFloat
    let lat0 := dms_to_decimal d1 m1 s1
    let lat := if g0 == [Char.ofNat 83] then lat0.neg else lat0
    let g4 ← m.grp? 4
    let d2 ← (m.grp? 5).bind pyFloat
    let m2 ← (m.grp? 6).bind pyFloat
    let s2 ← (m.grp? 7).bind pyFloat
    let lon0 := dms_to_decimal d2 m2 s2
    let lon := if g4 == [Char.ofNat 87] then lon0.neg else lon0
    pure ⟨lat, lon, stripCs m.whole⟩
  else if ptype == "dms_dir_last" then do
    let d1 ← (m.grp? 0).bind pyFloat
    let m1 ← (m.grp? 1).bind pyFloat
    let s1 ← (m.grp? 2).bind pyFloat
    let g3 ← m.grp? 3
    let lat0 := dms_to_decimal d1 m1 s1
    let lat := if g3 == [Char.ofNat 83] then lat0.neg else lat0
    let d2 ← (m.grp? 4).bind pyFloat
    let m2 ← (m.grp? 5).bind pyFloat
    let s2 ← (m.grp? 6).bind pyFloat
    let g7 ← m.grp? 7
    let lon0 := dms_to_decimal d2 m2 s2
    let lon := if g7 == [Char.ofNat 87] then lon0.neg else lon0
    pure ⟨lat, lon, stripCs m.whole⟩
  else if ptype == "dm_dir_first" then do
    let g0 ← m.grp? 0
    let d1 ← (m.grp? 1).bind pyFloat
    let m1 ← (m.grp? 2).bind pyFloat
    let lat0 := dm_to_decimal d1 m1
    let lat := if g0 == [Char.ofNat 83] then lat0.neg else lat0
    let g3 ← m.grp? 3
    let d2 ← (m.grp? 4).bind pyFloat
    let m2 ← (m.grp? 5).bind pyFloat
    let lon0 := dm_to_decimal d2 m2
    let lon := if g3 == [Char.ofNat 87] then lon0.neg else lon0
    pure ⟨lat, lon, stripCs m.whole⟩
  else if ptype == "dm_dir_last" then do
    let d1 ← (m.grp? 0).bind pyFloat
    let m1 ← (m.grp? 1).bind pyFloat
    let g2 ← m.grp? 2
    let lat0 := dm_to_decimal d1 m1
    let lat := if g2 == [Char.ofNat 83] then lat0.neg else lat0
    let d2 ← (m.grp? 3).bind pyFloat
    let m2 ← (m.grp? 4).bind pyFloat
    let g5 ← m.grp? 5
    let lon0 := dm_to_decimal d2 m2
    let lon := if g5 == [Char.ofNat 87] then lon0.neg else lon0
    pure ⟨lat, lon, stripCs m.whole⟩
  else if ptype == "decimal_dir_separate" then do
    let g0 ← m.grp? 0
    let lat0 ← (m.grp? 1).bind pyFloat
    let lat := if g0 == [Char.ofNat 83] then lat0.neg else lat0
    let g2 ← m.grp? 2
    let lon0 ← (m.grp? 3).bind pyFloat
    let lon := if g2 == [Char.ofNat 87] then lon0.neg else lon0
    pure ⟨lat, lon, stripCs m.whole⟩
  else if ptype == "decimal_dir_attached" then do
    let lat0 ← (m.grp? 0).bind pyFloat
    let g1 ← m.grp? 1
    let lat := if g1 == [Char.ofNat 83] then lat0.neg else lat0
    let lon0 ← (m.grp? 2).bind pyFloat
    let g3 ← m.grp? 3
    let lon := if g3 == [Char.ofNat 87] then lon0.neg else lon0
    pure ⟨lat, lon, stripCs m.whole⟩
  else if ptype == "pure_decimal" then do
    let g0 ← m.grp? 0
    let lat ← pyFloat g0
    let g1 ← m.grp? 1
    let lon ← pyFloat g1
    pure ⟨lat, lon, stripCs m.whole⟩
  else none

/-! ### `GPSExtractor.extract_gps_coordinates` -/

structure Candidate where
  latitude : Frac
  longitude : Frac
  source_text : List Char
  priority : Nat
  ptype : String
deriving DecidableEq

structure ExtractionResult where
  latitude : Frac
  longitude : Frac
  source_text : String
  extraction_confidence : String
deriving DecidableEq

/-- `GPSExtractor._calculate_confidence` (only the priority is used). -/
def calculate_confidence (priority : Nat) : String :=
  if 9 ≤ priority then "HIGH"
  else if 7 ≤ priority then "MEDIUM-HIGH"
  else if 5 ≤ priority then "MEDIUM"
  else "LOW"

/-- Stable insertion for `sorted(..., key=priority, reverse=True)`:
walk past strictly higher priorities, so that equal priorities keep
their original order (Python's sort is stable). -/
def insertRule (r : PatternRule) : List PatternRule → List PatternRule
  | [] => [r]
  | e :: es => if r.priority < e.priority then e :: insertRule r es else r :: e :: es

def sortRulesDesc (l : List PatternRule) : List PatternRule := l.foldr insertRule []

/-- All candidates: every rule (in descending-priority order) is run over
the whole corpus, every match is parsed, and only candidates passing
`validate_gps_coordinates` are kept, with the rule's priority and tag. -/
def candidatesOf (combined : List Char) : List Candidate :=
  (sortRulesDesc gps_patterns).flatMap (fun pr =>
    (findAll pr.pattern combined).filterMap (fun m =>
      match parse_match m pr.ptype with
      | some r =>
        if validate_gps_coordinates r.latitude r.longitude r.source_text then
          some ⟨r.latitude, r.longitude, r.source_text, pr.priority, pr.ptype⟩
        else none
      | none => none))

/-- Python `max(candidates, key=priority)`: the first candidate of
maximal priority. -/
def pyMaxBy (l : List Candidate) : Option Candidate :=
  match l with
  | [] => none
  | c :: cs => some (cs.foldl (fun b x => if b.priority < x.priority then x else b) c)

/-- `' '.join(text_list)`. -/
def joinSpace (l : List String) : List Char := (String.intercalate " " l).toList

/-- `GPSExtractor.extract_gps_coordinates`.  (The source also computes
`cleaned_text` and a `gps_context_score`, but neither value is used
afterwards — the patterns run on `combined_text` — so this dead code has
no observable effect and is not modelled.) -/
def extract_gps_coordinates (text_list : List String) : Option ExtractionResult :=
  let combined_text := joinSpace text_list
  match pyMaxBy (candidatesOf combined_text) with
  | some b => some ⟨b.latitude, b.longitude, String.mk b.source_text,
      calculate_confidence b.priority⟩
  | none => none

/-! ### The Detection Merge Engine (`OCRWorker._merge_detections`,
`_boxes_overlap`, `_text_similar` in `src/ocr_worker.py`) -/

/-- One OCR text detection: four-point polygon, recognized text,
confidence. -/
structure TextDetection where
  box : List (Frac × Frac)
  text : List Char
  conf : Frac
deriving DecidableEq

/-- Python `max` over a list of floats (first maximum kept). -/
def foldMaxF (x : Frac) (xs : List Frac) : Frac :=
  xs.foldl (fun cur v => if cur.blt v then v else cur) x

/-- Python `min` over a list of floats (first minimum kept). -/
def foldMinF (x : Frac) (xs : List Frac) : Frac :=
  xs.foldl (fun cur v => if v.blt cur then v else cur) x

def xsOf (b : List (Frac × Frac)) : List Frac := b.map (fun p => p.1)

def ysOf (b : List (Frac × Frac)) : List Frac := b.map (fun p => p.2)

/-- `max(coords)` of a box axis; the empty case cannot occur for a
four-point box and is mapped to 0. -/
def maxCoord (l : List Frac) : Frac :=
  match l with
  | [] => Frac.ofInt 0
  | x :: xs => foldMaxF x xs

def minCoord (l : List Frac) : Frac :=
  match l with
  | [] => Frac.ofInt 0
  | x :: xs => foldMinF x xs

/-- `box_area`: axis-aligned bounding-box area
`(max x − min x) * (max y − min y)`. -/
def box_area (b : List (Frac × Frac)) : Frac :=
  ((maxCoord (xsOf b)).sub (minCoord (xsOf b))).mul
    ((maxCoord (ysOf b)).sub (minCoord (ysOf b)))

/-- `boxes_intersect`: area of the intersection of the two axis-aligned
bounding boxes, `max(0, xov) * max(0, yov)` as in the source
(`max(0, ·)` applied to each axis overlap). -/
def boxes_intersect (b1 b2 : List (Frac × Frac)) : Frac :=
  let xov :=
    let v := ((minCoord [maxCoord (xsOf b1), maxCoord (xsOf b2)]).sub
      (maxCoord [minCoord (xsOf b1), minCoord (xsOf b2)]))
    if (Frac.ofInt 0).blt v then v else Frac.ofInt 0
  let yov :=
    let v := ((minCoord [maxCoord (ysOf b1), maxCoord (ysOf b2)]).sub
      (maxCoord [minCoord (ysOf b1), minCoord (ysOf b2)]))
    if (Frac.ofInt 0).blt v then v else Frac.ofInt 0
  xov.mul yov

/-- The IoU value `intersection / union` (union computed as
`area1 + area2 − intersection`); only meaningful when the union is
positive, which `boxes_overlap` guards. -/
def overlap_frac (b1 b2 : List (Frac × Frac)) : Frac :=
  let inter := boxes_intersect b1 b2
  let uni := ((box_area b1).add (box_area b2)).sub inter
  inter.div uni

/-- `OCRWorker._boxes_overlap` with the default threshold 0.5:
`(intersection / union) > 0.5 if union > 0 else False`. -/
def boxes_overlap (b1 b2 : List (Frac × Frac)) : Bool :=
  let inter := boxes_intersect b1 b2
  let uni := ((box_area b1).add (box_area b2)).sub inter
  if (Frac.ofInt 0).blt uni then (Frac.mk 1 2 (by decide)).blt (inter.div uni)
  else false

/-- Positional character matches: `sum(1 for a, b in zip(longer, shorter)
if a == b)`. -/
def posMatches (a b : List Char) : Nat :=
  (a.zip b).countP (fun p => p.1 == p.2)

/-- `OCRWorker._text_similar` with the default threshold 0.8 (the Python
float literal `0.8` modelled as the exact 4/5; the similarity values
compared in this development are never within float-representation error
of the threshold). -/
def text_similar (t1 t2 : List Char) : Bool :=
  let longer := if t2.length < t1.length then t1 else t2
  let shorter := if t2.length < t1.length then t2 else t1
  if h : longer.length = 0 then true
  else
    (Frac.mk 4 5 (by decide)).blt
      ⟨(posMatches longer shorter : Nat), longer.length, Nat.pos_of_ne_zero h⟩

/-- The duplicate test of the merge loop, in its argument order:
`_boxes_overlap(box, existing_box) and _text_similar(text,
existing_text)`. -/
def is_duplicate (d e : TextDetection) : Bool :=
  boxes_overlap d.box e.box && text_similar d.text e.text

/-- Python `==` on detections (value equality of the floats), used by
`merged.remove(existing)`. -/
def pyEqPt (p q : Frac × Frac) : Bool := p.1.beqv q.1 && p.2.beqv q.2

def pyEqBox (b1 b2 : List (Frac × Frac)) : Bool :=
  b1.length == b2.length && (b1.zip b2).all (fun pq => pyEqPt pq.1 pq.2)

def pyEqDet (a b : TextDetection) : Bool :=
  pyEqBox a.box b.box && a.text == b.text && a.conf.beqv b.conf

/-- Stable insertion for `sorted(detections, key=confidence,
reverse=True)`: walk past strictly higher confidences so equal
confidences keep their original order. -/
def insertDet (d : TextDetection) : List TextDetection → List TextDetection
  | [] => [d]
  | e :: es => if d.conf.blt e.conf then e :: insertDet d es else d :: e :: es

def pySortDesc : List TextDetection → List TextDetection
  | [] => []
  | d :: ds => insertDet d (pySortDesc ds)

/-- The merge loop: for each detection (in descending confidence), find
the first accepted duplicate; replace it when the new confidence is
strictly higher, drop the new detection otherwise; append when no
duplicate exists. -/
def mergeLoop : List TextDetection → List TextDetection → List TextDetection
  | [], merged => merged
  | d :: rest, merged =>
    match merged.find? (fun e => is_duplicate d e) with
    | some e =>
      if e.conf.blt d.conf then
        mergeLoop rest ((merged.eraseP (fun x => pyEqDet e x)) ++ [d])
      else mergeLoop rest merged
    | none => mergeLoop rest (merged ++ [d])

/-- `OCRWorker._merge_detections`. -/
def merge_detections (ds : List TextDetection) : List TextDetection :=
  match ds with
  | [] => []
  | _ => mergeLoop (pySortDesc ds) []

/-! ### The Geo-EXIF codec (`GPSExtractor.decimal_to_exif_gps`) -/

/-- The record written into the EXIF `GPS` field group; rationals are
(numerator, denominator) pairs. -/
structure GeoExifRecord where
  GPSLatitudeRef : Char
  GPSLatitude : List (Int × Nat)
  GPSLongitudeRef : Char
  GPSLongitude : List (Int × Nat)
  GPSMapDatum : String
  GPSVersionID : Nat × Nat × Nat × Nat
deriving DecidableEq

/-- `decimal_to_dms`: `degrees = int(|d|)`, `minutes_float = (|d| −
degrees) * 60`, `minutes = int(minutes_float)`, `seconds = (minutes_float
− minutes) * 60`. -/
def decimal_to_dms (decimal_deg : Frac) : Int × Int × Frac :=
  let a := decimal_deg.abs
  let degrees := a.pyInt
  let minutes_float := (a.sub (Frac.ofInt degrees)).mul (Frac.ofInt 60)
  let minutes := minutes_float.pyInt
  let seconds := (minutes_float.sub (Frac.ofInt minutes)).mul (Frac.ofInt 60)
  (degrees, minutes, seconds)

/-- `float_to_rational`: `(int(f), 1)` when `f == int(f)`, otherwise
`(int(f * 1000000), 1000000)` — `int(·)` truncates. -/
def float_to_rational (f : Frac) : Int × Nat :=
  if f.isInt then (f.pyInt, 1)
  else ((f.mul (Frac.ofInt 1000000)).pyInt, 1000000)

/-- `decimal_to_exif_gps`. -/
def decimal_to_exif_gps (lat lon : Frac) : GeoExifRecord :=
  let latd := decimal_to_dms lat
  let lond := decimal_to_dms lon
  { GPSLatitudeRef := if (Frac.ofInt 0).ble lat then 'N' else 'S'
    GPSLatitude := [(latd.1, 1), (latd.2.1, 1), float_to_rational latd.2.2]
    GPSLongitudeRef := if (Frac.ofInt 0).ble lon then 'E' else 'W'
    GPSLongitude := [(lond.1, 1), (lond.2.1, 1), float_to_rational lond.2.2]
    GPSMapDatum := "WGS-84"
    GPSVersionID := (2, 2, 0, 0) }

/-! ### Concrete fixtures used by the claim theorems -/

/-- The spec's DMS example text
`N 9° 38' 42.861", E 125° 32' 58.411"` (built character by character to
keep quoting unambiguous). -/
def c7text : List Char :=
  ['N', ' ', '9', '°', ' ', '3', '8', '\x27', ' ', '4', '2', '.', '8', '6', '1', '\x22',
   ',', ' ', 'E', ' ', '1', '2', '5', '°', ' ', '3', '2', '\x27', ' ', '5', '8', '.',
   '4', '1', '1', '\x22']

/-- Bounding box (0,0)–(2,1), area 2. -/
def cxBoxA : List (Frac × Frac) :=
  [(Frac.ofInt 0, Frac.ofInt 0), (Frac.ofInt 2, Frac.ofInt 0),
   (Frac.ofInt 2, Frac.ofInt 1), (Frac.ofInt 0, Frac.ofInt 1)]

/-- Bounding box (0,0)–(1,1), area 1; its IoU with `cxBoxA` is exactly
1/2. -/
def cxBoxB : List (Frac × Frac) :=
  [(Frac.ofInt 0, Frac.ofInt 0), (Frac.ofInt 1, Frac.ofInt 0),
   (Frac.ofInt 1, Frac.ofInt 1), (Frac.ofInt 0, Frac.ofInt 1)]

/-- The 0.91-confidence detection of the spec's merge example. -/
def detHi (b : List (Frac × Frac)) : TextDetection :=
  ⟨b, toCs "14.5995,120.9842", Frac.mk 91 100 (by decide)⟩

/-- The 0.60-confidence detection of the spec's merge example. -/
def detLo (b : List (Frac × Frac)) : TextDetection :=
  ⟨b, toCs "14.5995,120.9642", Frac.mk 60 100 (by decide)⟩

/-- The seconds value of the degrees/minutes/seconds decomposition of a
(rational-valued) coordinate, at the specification level. -/
def secondsOfQ (x : ℚ) : ℚ :=
  ((|x| - ⌊|x|⌋) * 60 - ⌊(|x| - ⌊|x|⌋) * 60⌋) * 60

/-- How a DMS component of value `s` is encoded as an EXIF rational by
the source: integral values exactly as `(value, 1)`, fractional values
at denominator 1,000,000 with the numerator obtained by truncation
(equivalently, the floor of the nonnegative `s * 10^6`), so the encoded
rational underestimates `s` by less than `1e-6`. -/
def truncEnc (ds : Int × Nat) (s : ℚ) : Prop :=
  (ds.2 = 1 ∧ (ds.1 : ℚ) = s) ∨
  (ds.2 = 1000000 ∧ ds.1 = ⌊s * 1000000⌋ ∧
    (ds.1 : ℚ) / 1000000 ≤ s ∧ s < (ds.1 : ℚ) / 1000000 + 1/1000000)

/-! ## Theorems

### Value semantics of `Frac` -/

theorem Frac.denQ_pos (a : Frac) : (0 : ℚ) < (a.den : ℚ) := by exact_mod_cast a.dpos

theorem Frac.val_ofInt (n : Int) : (Frac.ofInt n).val = (n : ℚ) := by
  simp [Frac.val, Frac.ofInt]

theorem Frac.ble_iff (a b : Frac) : a.ble b = true ↔ a.val ≤ b.val := by
  rw [Frac.val, Frac.val, div_le_div_iff₀ a.denQ_pos b.denQ_pos, Frac.ble,
    decide_eq_true_eq]
  exact_mod_cast Iff.rfl

theorem Frac.blt_iff (a b : Frac) : a.blt b = true ↔ a.val < b.val := by
  rw [Frac.val, Frac.val, div_lt_div_iff₀ a.denQ_pos b.denQ_pos, Frac.blt,
    decide_eq_true_eq]
  exact_mod_cast Iff.rfl

theorem Frac.beqv_iff (a b : Frac) : a.beqv b = true ↔ a.val = b.val := by
  rw [Frac.val, Frac.val, div_eq_div_iff (ne_of_gt a.denQ_pos) (ne_of_gt b.denQ_pos),
    Frac.beqv, decide_eq_true_eq]
  exact_mod_cast Iff.rfl

theorem Frac.ble_of_blt {a b : Frac} (h : a.blt b = true) : a.ble b = true :=
  (Frac.ble_iff a b).mpr (le_of_lt ((Frac.blt_iff a b).mp h))

theorem Frac.ble_of_not_blt {a b : Frac} (h : ¬ a.blt b = true) : b.ble a = true :=
  (Frac.ble_iff b a).mpr (le_of_not_lt (fun hlt => h ((Frac.blt_iff a b).mpr hlt)))

theorem Frac.ble_trans {a b c : Frac} (h1 : a.ble b = true) (h2 : b.ble c = true) :
    a.ble c = true :=
  (Frac.ble_iff a c).mpr (le_trans ((Frac.ble_iff a b).mp h1) ((Frac.ble_iff b c).mp h2))

theorem Frac.blt_asymm {a b : Frac} (h1 : a.ble b = true) : b.blt a = false := by
  rcases hb : b.blt a with _ | _
  · rfl
  · exact absurd ((Frac.ble_iff a b).mp h1)
      (not_le_of_lt ((Frac.blt_iff b a).mp hb))

theorem Frac.val_add (a b : Frac) : (a.add b).val = a.val + b.val := by
  have ha := a.denQ_pos
  have hb := b.denQ_pos
  rw [Frac.val, Frac.val, Frac.val, Frac.add]
  push_cast
  field_simp

theorem Frac.val_neg (a : Frac) : a.neg.val = -a.val := by
  rw [Frac.val, Frac.val, Frac.neg]
  push_cast
  ring_nf

theorem Frac.val_sub (a b : Frac) : (a.sub b).val = a.val - b.val := by
  rw [Frac.sub, Frac.val_add, Frac.val_neg]
  ring

theorem Frac.val_mul (a b : Frac) : (a.mul b).val = a.val * b.val := by
  have ha := a.denQ_pos
  have hb := b.denQ_pos
  rw [Frac.val, Frac.val, Frac.val, Frac.mul]
  push_cast
  field_simp

theorem Frac.val_abs (a : Frac) : a.abs.val = |a.val| := by
  rw [Frac.val, Frac.val, Frac.abs]
  rw [abs_div, abs_of_pos a.denQ_pos]
  congr 1
  push_cast [Int.cast_natAbs]
  rfl

/-! ### Structure of `extract_gps_coordinates` -/

theorem pyFoldMax_mem (cs : List Candidate) (c : Candidate) :
    cs.foldl (fun b x => if b.priority < x.priority then x else b) c ∈ c :: cs := by
  induction cs generalizing c with
  | nil => simp
  | cons x xs ih =>
    simp only [List.foldl_cons]
    rcases List.mem_cons.mp (ih (if c.priority < x.priority then x else c)) with h | h
    · rw [h]
      split
      · exact List.mem_cons_of_mem _ (List.mem_cons_self _ _)
      · exact List.mem_cons_self _ _
    · exact List.mem_cons_of_mem _ (List.mem_cons_of_mem _ h)

theorem pyFoldMax_ge (cs : List Candidate) (c : Candidate) :
    c.priority ≤ (cs.foldl (fun b x => if b.priority < x.priority then x else b) c).priority ∧
    ∀ y ∈ cs,
      y.priority ≤ (cs.foldl (fun b x => if b.priority < x.priority then x else b) c).priority := by
  induction cs generalizing c with
  | nil => exact ⟨le_refl _, by simp⟩
  | cons x xs ih =>
    simp only [List.foldl_cons]
    obtain ⟨h1, h2⟩ := ih (if c.priority < x.priority then x else c)
    refine ⟨le_trans ?_ h1, ?_⟩
    · split
      · next hlt => exact le_of_lt hlt
      · exact le_refl _
    · intro y hy
      rcases List.mem_cons.mp hy with rfl | hy
      · refine le_trans ?_ h1
        split
        · exact le_refl _
        · next hnlt => exact le_of_not_lt hnlt
      · exact h2 y hy

theorem pyMaxBy_mem {l : List Candidate} {b : Candidate} (h : pyMaxBy l = some b) :
    b ∈ l := by
  cases l with
  | nil => simp [pyMaxBy] at h
  | cons c cs =>
    simp only [pyMaxBy, Option.some.injEq] at h
    rw [← h]
    exact pyFoldMax_mem cs c

theorem pyMaxBy_max {l : List Candidate} {b : Candidate} (h : pyMaxBy l = some b) :
    ∀ y ∈ l, y.priority ≤ b.priority := by
  cases l with
  | nil => simp [pyMaxBy] at h
  | cons c cs =>
    simp only [pyMaxBy, Option.some.injEq] at h
    intro y hy
    rw [← h]
    rcases List.mem_cons.mp hy with rfl | hy
    · exact (pyFoldMax_ge cs y).1
    · exact (pyFoldMax_ge cs c).2 y hy

/-- Every candidate has passed `validate_gps_coordinates`. -/
theorem validate_of_mem_candidates {s : List Char} {c : Candidate}
    (h : c ∈ candidatesOf s) :
    validate_gps_coordinates c.latitude c.longitude c.source_text = true := by
  unfold candidatesOf at h
  rw [List.mem_flatMap] at h
  obtain ⟨pr, _, hm⟩ := h
  rw [List.mem_filterMap] at hm
  obtain ⟨m, _, hsome⟩ := hm
  cases hp : parse_match m pr.ptype with
  | none => rw [hp] at hsome; simp at hsome
  | some r =>
    rw [hp] at hsome
    by_cases hv : validate_gps_coordinates r.latitude r.longitude r.source_text = true
    · simp only [hv, if_true, Option.some.injEq] at hsome
      rw [← hsome]
      exact hv
    · simp only [Bool.not_eq_true] at hv
      simp [hv] at hsome

/-- If extraction succeeds, the result is a validated candidate of
maximal priority, its fields copied unchanged and its confidence label
derived from the priority. -/
theorem extract_spec {l : List String} {r : ExtractionResult}
    (h : extract_gps_coordinates l = some r) :
    ∃ c ∈ candidatesOf (joinSpace l),
      r.latitude = c.latitude ∧ r.longitude = c.longitude ∧
      r.source_text = String.mk c.source_text ∧
      r.extraction_confidence = calculate_confidence c.priority ∧
      ∀ c2 ∈ candidatesOf (joinSpace l), c2.priority ≤ c.priority := by
  simp only [extract_gps_coordinates] at h
  cases hm : pyMaxBy (candidatesOf (joinSpace l)) with
  | none => rw [hm] at h; simp at h
  | some b =>
    rw [hm] at h
    simp only [Option.some.injEq] at h
    exact ⟨b, pyMaxBy_mem hm, by rw [← h], by rw [← h], by rw [← h], by rw [← h],
      pyMaxBy_max hm⟩

/-- The range conjunction is the first check of
`validate_gps_coordinates`. -/
theorem validate_range {lat lon : Frac} {src : List Char}
    (h : validate_gps_coordinates lat lon src = true) :
    (Frac.ofInt (-90)).ble lat = true ∧ lat.ble (Frac.ofInt 90) = true ∧
    (Frac.ofInt (-180)).ble lon = true ∧ lon.ble (Frac.ofInt 180) = true := by
  unfold validate_gps_coordinates at h
  rcases hA : ((Frac.ofInt (-90)).ble lat && lat.ble (Frac.ofInt 90) &&
      (Frac.ofInt (-180)).ble lon && lon.ble (Frac.ofInt 180)) with _ | _
  · rw [hA] at h
    simp at h
  · have h4 := (Bool.and_eq_true_iff.mp hA).2
    have hABC := (Bool.and_eq_true_iff.mp hA).1
    have h3 := (Bool.and_eq_true_iff.mp hABC).2
    have hAB := (Bool.and_eq_true_iff.mp hABC).1
    exact ⟨(Bool.and_eq_true_iff.mp hAB).1, (Bool.and_eq_true_iff.mp hAB).2, h3, h4⟩

/-- Null island is rejected by the fourth check of
`validate_gps_coordinates`. -/
theorem validate_not_null_island {lat lon : Frac} {src : List Char}
    (h : validate_gps_coordinates lat lon src = true) :
    ¬(lat.beqv (Frac.ofInt 0) = true ∧ lon.beqv (Frac.ofInt 0) = true) := by
  unfold validate_gps_coordinates at h
  split at h
  · simp at h
  split at h
  · simp at h
  split at h
  · simp at h
  split at h
  · simp at h
  rename_i hns
  intro hz
  obtain ⟨h0, h1⟩ := hz
  exact hns (by rw [h0, h1]; rfl)

/-! ### Claim theorems -/

/-- C1: for every input list of text fragments, if
`extract_gps_coordinates` returns an `ExtractionResult`, its latitude
lies in [−90, 90] and its longitude lies in [−180, 180]; the range check
is part of validation and selection copies the validated values
unchanged, so no operation after validation can move a result outside
these ranges. -/
theorem extract_result_in_valid_range (text_list : List String) (r : ExtractionResult)
    (h : extract_gps_coordinates text_list = some r) :
    (-90 ≤ r.latitude.val ∧ r.latitude.val ≤ 90) ∧
    (-180 ≤ r.longitude.val ∧ r.longitude.val ≤ 180) := by
  obtain ⟨c, hc, hlat, hlon, _, _, _⟩ := extract_spec h
  have hv := validate_of_mem_candidates hc
  obtain ⟨h1, h2, h3, h4⟩ := validate_range hv
  rw [hlat, hlon]
  have g1 := (Frac.ble_iff _ _).mp h1
  have g2 := (Frac.ble_iff _ _).mp h2
  have g3 := (Frac.ble_iff _ _).mp h3
  have g4 := (Frac.ble_iff _ _).mp h4
  rw [Frac.val_ofInt] at g1 g3
  rw [Frac.val_ofInt] at g2 g4
  exact ⟨⟨by exact_mod_cast g1, by exact_mod_cast g2⟩,
    ⟨by exact_mod_cast g3, by exact_mod_cast g4⟩⟩

theorem extract_result_in_valid_range_witness :
    (-90 ≤ (Frac.mk 145995 10000 (by decide)).val ∧
      (Frac.mk 145995 10000 (by decide)).val ≤ 90) ∧
    (-180 ≤ (Frac.mk 1209842 10000 (by decide)).val ∧
      (Frac.mk 1209842 10000 (by decide)).val ≤ 180) :=
  extract_result_in_valid_range ["GPS: 14.5995, 120.9842"]
    ⟨Frac.mk 145995 10000 (by decide), Frac.mk 1209842 10000 (by decide),
      "GPS: 14.5995, 120.9842", "HIGH"⟩ (by decide)

/-- C2: `extract_gps_coordinates` never returns a result whose latitude
and longitude are both exactly 0: null island is rejected during
validation, for every input. -/
theorem extract_never_null_island (text_list : List String) (r : ExtractionResult)
    (h : extract_gps_coordinates text_list = some r) :
    ¬(r.latitude.val = 0 ∧ r.longitude.val = 0) := by
  obtain ⟨c, hc, hlat, hlon, _, _, _⟩ := extract_spec h
  have hv := validate_of_mem_candidates hc
  have hnz := validate_not_null_island hv
  rw [hlat, hlon]
  intro hz
  refine hnz ⟨?_, ?_⟩
  · exact (Frac.beqv_iff _ _).mpr (by rw [Frac.val_ofInt]; exact_mod_cast hz.1)
  · exact (Frac.beqv_iff _ _).mpr (by rw [Frac.val_ofInt]; exact_mod_cast hz.2)

theorem extract_never_null_island_witness :
    ¬((Frac.mk 145995 10000 (by decide)).val = 0 ∧
      (Frac.mk 1209842 10000 (by decide)).val = 0) :=
  extract_never_null_island ["GPS: 14.5995, 120.9842"]
    ⟨Frac.mk 145995 10000 (by decide), Frac.mk 1209842 10000 (by decide),
      "GPS: 14.5995, 120.9842", "HIGH"⟩ (by decide)

/-- C3: input `"GPS: 14.5995, 120.9842"` yields latitude 14.5995,
longitude 120.9842 and confidence `HIGH`; and in general the extraction
result is a validated candidate of maximal rule priority, with the
confidence label `HIGH` for priority ≥ 9, `MEDIUM-HIGH` for ≥ 7,
`MEDIUM` for ≥ 5, `LOW` otherwise. -/
theorem extract_gps_labeled_example_and_selection :
    ((extract_gps_coordinates ["GPS: 14.5995, 120.9842"]).map
        (fun r => (r.latitude.val, r.longitude.val, r.source_text,
          r.extraction_confidence)) =
      some (14.5995, 120.9842, "GPS: 14.5995, 120.9842", "HIGH")) ∧
    (∀ (l : List String) (r : ExtractionResult),
      extract_gps_coordinates l = some r →
      ∃ c ∈ candidatesOf (joinSpace l),
        (∀ c2 ∈ candidatesOf (joinSpace l), c2.priority ≤ c.priority) ∧
        r.latitude = c.latitude ∧ r.longitude = c.longitude ∧
        r.extraction_confidence =
          (if 9 ≤ c.priority then "HIGH"
           else if 7 ≤ c.priority then "MEDIUM-HIGH"
           else if 5 ≤ c.priority then "MEDIUM"
           else "LOW")) := by
  constructor
  · have h : extract_gps_coordinates ["GPS: 14.5995, 120.9842"] =
        some ⟨Frac.mk 145995 10000 (by decide), Frac.mk 1209842 10000 (by decide),
          "GPS: 14.5995, 120.9842", "HIGH"⟩ := by decide
    rw [h]
    simp only [Option.map_some', Option.some.injEq, Prod.mk.injEq, Frac.val]
    norm_num
  · intro l r h
    obtain ⟨c, hc, hlat, hlon, _, hconf, hmax⟩ := extract_spec h
    exact ⟨c, hc, hmax, hlat, hlon, hconf⟩

theorem extract_gps_labeled_example_and_selection_witness :
    ∃ c ∈ candidatesOf (joinSpace ["GPS: 14.5995, 120.9842"]),
      (∀ c2 ∈ candidatesOf (joinSpace ["GPS: 14.5995, 120.9842"]),
        c2.priority ≤ c.priority) ∧
      (⟨Frac.mk 145995 10000 (by decide), Frac.mk 1209842 10000 (by decide),
        "GPS: 14.5995, 120.9842", "HIGH"⟩ : ExtractionResult).latitude = c.latitude ∧
      (⟨Frac.mk 145995 10000 (by decide), Frac.mk 1209842 10000 (by decide),
        "GPS: 14.5995, 120.9842", "HIGH"⟩ : ExtractionResult).longitude = c.longitude ∧
      (⟨Frac.mk 145995 10000 (by decide), Frac.mk 1209842 10000 (by decide),
        "GPS: 14.5995, 120.9842", "HIGH"⟩ : ExtractionResult).extraction_confidence =
        (if 9 ≤ c.priority then "HIGH"
         else if 7 ≤ c.priority then "MEDIUM-HIGH"
         else if 5 ≤ c.priority then "MEDIUM"
         else "LOW") :=
  extract_gps_labeled_example_and_selection.2 ["GPS: 14.5995, 120.9842"]
    ⟨Frac.mk 145995 10000 (by decide), Frac.mk 1209842 10000 (by decide),
      "GPS: 14.5995, 120.9842", "HIGH"⟩ (by decide)

/-- C5 (amended): the extraction outcome is a function of the
space-joined corpus alone — two fragment lists with the same join give
identical outcomes (hence re-running the same list is deterministic) —
but extraction is NOT invariant under arbitrary permutation, because
permuting fragments changes the joined corpus
(see `extract_not_permutation_invariant`). -/
theorem extract_depends_only_on_joined_corpus (l1 l2 : List String)
    (h : joinSpace l1 = joinSpace l2) :
    extract_gps_coordinates l1 = extract_gps_coordinates l2 := by
  simp only [extract_gps_coordinates]
  rw [h]

theorem extract_depends_only_on_joined_corpus_witness :
    extract_gps_coordinates ["GPS:", "14.5995, 120.9842"] =
      extract_gps_coordinates ["GPS: 14.5995,", "120.9842"] :=
  extract_depends_only_on_joined_corpus ["GPS:", "14.5995, 120.9842"]
    ["GPS: 14.5995,", "120.9842"] (by decide)

/-- C5 counterexample: reversing the two fragments
`["GPS: 14.5995,", "120.9842"]` changes the joined corpus from
`"GPS: 14.5995, 120.9842"` (which extracts a coordinate) to
`"120.9842 GPS: 14.5995,"` (whose only pattern match, `GPS: 14.599`/`5`,
fails validation), so the extraction outcome differs: the claim that the
outcome is invariant under every permutation of the input list is false. -/
theorem extract_not_permutation_invariant :
    extract_gps_coordinates ["GPS: 14.5995,", "120.9842"] ≠
      extract_gps_coordinates (["GPS: 14.5995,", "120.9842"].reverse) := by
  decide

/-- C7: the DMS input `N 9° 38' 42.861", E 125° 32' 58.411"` yields
latitude `9 + 38/60 + 42.861/3600 ≈ 9.645239` and longitude
`125 + 32/60 + 58.411/3600 ≈ 125.549558`, each within 1e-4 of the spec's
stated values, by the conversion `decimal = degrees + minutes/60 +
seconds/3600`. -/
theorem extract_dms_example :
    ∃ r : ExtractionResult,
      extract_gps_coordinates [String.mk c7text] = some r ∧
      r.latitude.val = 9 + 38/60 + 42.861/3600 ∧
      r.longitude.val = 125 + 32/60 + 58.411/3600 ∧
      |r.latitude.val - 9.645239| ≤ 1/10000 ∧
      |r.longitude.val - 125.549558| ≤ 1/10000 := by
  refine ⟨⟨Frac.mk 2083371660 216000000 (by decide),
    Frac.mk 27118704660 216000000 (by decide), String.mk c7text, "HIGH"⟩,
    by decide, ?_, ?_, ?_, ?_⟩
  · rw [Frac.val]
    norm_num
  · rw [Frac.val]
    norm_num
  · rw [Frac.val, abs_le]
    constructor <;> norm_num
  · rw [Frac.val, abs_le]
    constructor <;> norm_num

/-- C9: the camera-settings text `ISO 400, F/2.8, 1/125s` produces no
coordinate; the exclusion bank does fire on that text
(`is_false_positive` is true, via the `ISO\s*\d+` pattern); and in
general the exclusion check is skipped — `is_false_positive` returns
false immediately — whenever the upper-cased source text contains one of
the strong GPS keywords GPS, COORD, LAT, LON, LATITUDE, LONGITUDE, MAP,
LOCATION, POSITION. -/
theorem iso_text_yields_no_coordinate_and_keyword_override :
    extract_gps_coordinates ["ISO 400, F/2.8, 1/125s"] = none ∧
    is_false_positive (toCs "ISO 400, F/2.8, 1/125s") = true ∧
    ∀ t : List Char,
      ([toCs "GPS", toCs "COORD", toCs "LAT", toCs "LON", toCs "LATITUDE",
        toCs "LONGITUDE", toCs "MAP", toCs "LOCATION", toCs "POSITION"].any
        (fun k => containsSub (stripCs (upperCs t)) k)) = true →
      is_false_positive t = false := by
  refine ⟨by decide, by decide, ?_⟩
  intro t h
  rw [List.any_eq_true] at h
  obtain ⟨k, hk, hc⟩ := h
  have hmem : k ∈ gps_keywords := by
    simp only [List.mem_cons, List.not_mem_nil, or_false] at hk
    rcases hk with rfl | rfl | rfl | rfl | rfl | rfl | rfl | rfl | rfl
    all_goals decide
  have hany : gps_keywords.any (fun k2 => containsSub (stripCs (upperCs t)) k2) = true :=
    List.any_eq_true.mpr ⟨k, hmem, hc⟩
  simp [is_false_positive, hany]

theorem iso_text_keyword_override_witness :
    is_false_positive (toCs "GPS 12:34:56") = false :=
  iso_text_yields_no_coordinate_and_keyword_override.2.2 (toCs "GPS 12:34:56") (by decide)

/-! ### C4: the Geo-EXIF codec -/

theorem Frac.num_nonneg_of_val {q : Frac} (h : 0 ≤ q.val) : 0 ≤ q.num := by
  by_contra hneg
  push_neg at hneg
  have : q.val < 0 := by
    rw [Frac.val]
    exact div_neg_of_neg_of_pos (by exact_mod_cast hneg) q.denQ_pos
  exact absurd h (not_le_of_lt this)

theorem Frac.pyInt_eq_floor {q : Frac} (h : 0 ≤ q.val) : q.pyInt = ⌊q.val⌋ := by
  rw [Frac.pyInt, Frac.val, Rat.floor_intCast_div_natCast,
    Int.tdiv_eq_ediv (Frac.num_nonneg_of_val h) (by exact_mod_cast Nat.zero_le q.den)]

theorem Frac.pyInt_cast_of_isInt {q : Frac} (h : q.isInt = true) :
    (q.pyInt : ℚ) = q.val := by
  rw [Frac.isInt, decide_eq_true_eq] at h
  obtain ⟨k, hk⟩ := Int.dvd_of_emod_eq_zero h
  have hd : (q.den : Int) ≠ 0 := by exact_mod_cast Nat.pos_iff_ne_zero.mp q.dpos
  rw [Frac.pyInt, Frac.val, hk, Int.mul_tdiv_cancel_left k hd]
  have hdQ : (q.den : ℚ) ≠ 0 := ne_of_gt q.denQ_pos
  push_cast
  field_simp

/-- Components of `decimal_to_dms` in terms of the rational value of its
input. -/
theorem dms_components (x : Frac) :
    (decimal_to_dms x).1 = ⌊|x.val|⌋ ∧
    (decimal_to_dms x).2.1 = ⌊(|x.val| - ⌊|x.val|⌋) * 60⌋ ∧
    (decimal_to_dms x).2.2.val = secondsOfQ x.val ∧
    0 ≤ (decimal_to_dms x).2.2.val := by
  have habs : x.abs.val = |x.val| := Frac.val_abs x
  have h0 : (0 : ℚ) ≤ x.abs.val := habs ▸ abs_nonneg x.val
  have hdeg : x.abs.pyInt = ⌊|x.val|⌋ := by rw [Frac.pyInt_eq_floor h0, habs]
  have hmfval :
      ((x.abs.sub (Frac.ofInt x.abs.pyInt)).mul (Frac.ofInt 60)).val =
        (|x.val| - ⌊|x.val|⌋) * 60 := by
    rw [Frac.val_mul, Frac.val_sub, Frac.val_ofInt, Frac.val_ofInt, habs, hdeg]
    norm_num
  have hmf0 : (0 : ℚ) ≤ ((x.abs.sub (Frac.ofInt x.abs.pyInt)).mul (Frac.ofInt 60)).val := by
    rw [hmfval]
    have : (0 : ℚ) ≤ |x.val| - ⌊|x.val|⌋ := sub_nonneg.mpr (Int.floor_le _)
    positivity
  have hmins :
      ((x.abs.sub (Frac.ofInt x.abs.pyInt)).mul (Frac.ofInt 60)).pyInt =
        ⌊(|x.val| - ⌊|x.val|⌋) * 60⌋ := by
    rw [Frac.pyInt_eq_floor hmf0, hmfval]
  refine ⟨hdeg, hmins, ?_, ?_⟩
  · show ((((x.abs.sub (Frac.ofInt x.abs.pyInt)).mul (Frac.ofInt 60)).sub
      (Frac.ofInt ((x.abs.sub (Frac.ofInt x.abs.pyInt)).mul (Frac.ofInt 60)).pyInt)).mul
        (Frac.ofInt 60)).val = secondsOfQ x.val
    rw [Frac.val_mul, Frac.val_sub, Frac.val_ofInt, Frac.val_ofInt, hmfval, hmins,
      secondsOfQ]
    norm_num
  · show (0 : ℚ) ≤ ((((x.abs.sub (Frac.ofInt x.abs.pyInt)).mul (Frac.ofInt 60)).sub
      (Frac.ofInt ((x.abs.sub (Frac.ofInt x.abs.pyInt)).mul (Frac.ofInt 60)).pyInt)).mul
        (Frac.ofInt 60)).val
    rw [Frac.val_mul, Frac.val_sub, Frac.val_ofInt, Frac.val_ofInt, hmfval, hmins]
    have : (0 : ℚ) ≤ (|x.val| - ⌊|x.val|⌋) * 60 - ⌊(|x.val| - ⌊|x.val|⌋) * 60⌋ :=
      sub_nonneg.mpr (Int.floor_le _)
    positivity

/-- `float_to_rational` satisfies the truncating-encoding contract on
nonnegative inputs. -/
theorem float_to_rational_spec (f : Frac) (hf : 0 ≤ f.val) :
    truncEnc (float_to_rational f) f.val := by
  rw [float_to_rational]
  cases hi : f.isInt with
  | true =>
    left
    rw [if_pos rfl]
    exact ⟨rfl, Frac.pyInt_cast_of_isInt hi⟩
  | false =>
    right
    rw [if_neg Bool.false_ne_true]
    have hgval : (f.mul (Frac.ofInt 1000000)).val = f.val * 1000000 := by
      rw [Frac.val_mul, Frac.val_ofInt]
      norm_num
    have hg0 : 0 ≤ (f.mul (Frac.ofInt 1000000)).val := by
      rw [hgval]
      positivity
    have hn : (f.mul (Frac.ofInt 1000000)).pyInt = ⌊f.val * 1000000⌋ := by
      rw [Frac.pyInt_eq_floor hg0, hgval]
    refine ⟨rfl, hn, ?_, ?_⟩
    · rw [hn]
      rw [div_le_iff₀ (by norm_num : (0:ℚ) < 1000000)]
      exact Int.floor_le _
    · rw [hn]
      have hlt : f.val * 1000000 < ⌊f.val * 1000000⌋ + 1 := Int.lt_floor_add_one _
      have : f.val < ((⌊f.val * 1000000⌋ : ℚ) + 1) / 1000000 := by
        rw [lt_div_iff₀ (by norm_num : (0:ℚ) < 1000000)]
        exact hlt
      calc f.val < ((⌊f.val * 1000000⌋ : ℚ) + 1) / 1000000 := this
        _ = (⌊f.val * 1000000⌋ : ℚ) / 1000000 + 1/1000000 := by ring

/-- C4 (amended): for every coordinate pair, `decimal_to_exif_gps`
encodes degrees and minutes exactly as `(value, 1)`, and encodes each
seconds value `s` by the truncating contract `truncEnc`: `(value, 1)`
exactly when `s` is integral, else denominator 1,000,000 with numerator
`⌊s × 10^6⌋` (truncation, not rounding to nearest), underestimating `s`
by less than 1e-6. -/
theorem decimal_to_exif_gps_truncating_encoding (lat lon : Frac) :
    ∃ ds1 ds2 : Int × Nat,
      (decimal_to_exif_gps lat lon).GPSLatitude =
        [(⌊|lat.val|⌋, 1), (⌊(|lat.val| - ⌊|lat.val|⌋) * 60⌋, 1), ds1] ∧
      (decimal_to_exif_gps lat lon).GPSLongitude =
        [(⌊|lon.val|⌋, 1), (⌊(|lon.val| - ⌊|lon.val|⌋) * 60⌋, 1), ds2] ∧
      truncEnc ds1 (secondsOfQ lat.val) ∧ truncEnc ds2 (secondsOfQ lon.val) := by
  obtain ⟨hd1, hm1, hs1, hp1⟩ := dms_components lat
  obtain ⟨hd2, hm2, hs2, hp2⟩ := dms_components lon
  refine ⟨float_to_rational (decimal_to_dms lat).2.2,
    float_to_rational (decimal_to_dms lon).2.2, ?_, ?_, ?_, ?_⟩
  · show [((decimal_to_dms lat).1, 1), ((decimal_to_dms lat).2.1, 1),
      float_to_rational (decimal_to_dms lat).2.2] = _
    rw [hd1, hm1]
  · show [((decimal_to_dms lon).1, 1), ((decimal_to_dms lon).2.1, 1),
      float_to_rational (decimal_to_dms lon).2.2] = _
    rw [hd2, hm2]
  · have := float_to_rational_spec (decimal_to_dms lat).2.2 (by rw [hs1] at hp1 ⊢; exact hp1)
    rwa [hs1] at this
  · have := float_to_rational_spec (decimal_to_dms lon).2.2 (by rw [hs2] at hp2 ⊢; exact hp2)
    rwa [hs2] at this

/-- C4 counterexample: at latitude `10000017/36000000000` the seconds
value is exactly `1.0000017`; the source encodes its numerator by
truncation as `1000001`, whereas the claim's `round(value × 10^6)`
(nearest integer) is `1000002`. -/
theorem decimal_to_exif_gps_rounding_counterexample :
    (decimal_to_exif_gps (Frac.mk 10000017 36000000000 (by decide))
        (Frac.ofInt 0)).GPSLatitude = [(0, 1), (0, 1), (1000001, 1000000)] ∧
    ((decimal_to_dms (Frac.mk 10000017 36000000000 (by decide))).2.2).val =
      10000017/10000000 ∧
    round ((10000017 : ℚ)/10000000 * 1000000) = 1000002 ∧
    (1000001 : Int) ≠ 1000002 := by
  refine ⟨by decide, ?_, by norm_num [round_eq], by decide⟩
  have h : (decimal_to_dms (Frac.mk 10000017 36000000000 (by decide))).2.2 =
      Frac.mk 36000061200 36000000000 (by decide) := by decide
  rw [h, Frac.val]
  norm_num

/-! ### C6/C10: the Detection Merge Engine -/

theorem bool_eq_of_iff {x y : Bool} (h : x = true ↔ y = true) : x = y := by
  cases x <;> cases y <;> simp_all

theorem Frac.blt_congr {a a2 b b2 : Frac} (ha : a.val = a2.val) (hb : b.val = b2.val) :
    a.blt b = a2.blt b2 :=
  bool_eq_of_iff (by rw [Frac.blt_iff, Frac.blt_iff, ha, hb])

theorem Frac.num_ne_zero_of_val_pos {a : Frac} (h : 0 < a.val) : a.num ≠ 0 := by
  intro hz
  rw [Frac.val, hz] at h
  simp at h

theorem Frac.val_div {a b : Frac} (h : b.num ≠ 0) : (a.div b).val = a.val / b.val := by
  rw [Frac.div, dif_neg h]
  have hda : ((a.den : ℚ)) ≠ 0 := ne_of_gt a.denQ_pos
  have hdb : ((b.den : ℚ)) ≠ 0 := ne_of_gt b.denQ_pos
  have hbQ : ((b.num : ℚ)) ≠ 0 := by exact_mod_cast h
  rcases h.lt_or_lt with hneg | hpos
  · rw [if_neg (by exact not_lt.mpr (le_of_lt hneg))]
    rw [Frac.val, Frac.val, Frac.val]
    push_cast [Int.cast_natAbs]
    rw [abs_of_neg (by exact_mod_cast hneg : ((b.num : ℚ)) < 0)]
    field_simp
  · rw [if_pos hpos]
    rw [Frac.val, Frac.val, Frac.val]
    push_cast [Int.cast_natAbs]
    rw [abs_of_pos (by exact_mod_cast hpos : (0:ℚ) < ((b.num : ℚ)))]
    field_simp

theorem Frac.not_lt_of_blt_false {a b : Frac} (h : a.blt b = false) :
    ¬ a.val < b.val := by
  intro hlt
  rw [(Frac.blt_iff a b).mpr hlt] at h
  exact absurd h (by simp)

theorem val_minPair (a b : Frac) : (minCoord [a, b]).val = min a.val b.val := by
  simp only [minCoord, foldMinF, List.foldl]
  rcases hb : b.blt a with _ | _
  · rw [if_neg Bool.false_ne_true]
    exact (min_eq_left (le_of_not_lt (Frac.not_lt_of_blt_false hb))).symm
  · rw [if_pos rfl]
    exact (min_eq_right (le_of_lt ((Frac.blt_iff b a).mp hb))).symm

theorem val_maxPair (a b : Frac) : (maxCoord [a, b]).val = max a.val b.val := by
  simp only [maxCoord, foldMaxF, List.foldl]
  rcases hb : a.blt b with _ | _
  · rw [if_neg Bool.false_ne_true]
    exact (max_eq_left (le_of_not_lt (Frac.not_lt_of_blt_false hb))).symm
  · rw [if_pos rfl]
    exact (max_eq_right (le_of_lt ((Frac.blt_iff a b).mp hb))).symm

theorem val_posPart (v : Frac) :
    (if (Frac.ofInt 0).blt v then v else Frac.ofInt 0).val = max 0 v.val := by
  rcases hb : (Frac.ofInt 0).blt v with _ | _
  · rw [if_neg Bool.false_ne_true]
    have h0 := Frac.not_lt_of_blt_false hb
    rw [Frac.val_ofInt] at h0
    rw [max_eq_left (le_of_not_lt (by exact_mod_cast h0)), Frac.val_ofInt]
    norm_num
  · rw [if_pos rfl]
    have hlt := (Frac.blt_iff (Frac.ofInt 0) v).mp hb
    rw [Frac.val_ofInt] at hlt
    exact (max_eq_right (le_of_lt (by exact_mod_cast hlt))).symm

/-- The value of the intersection area, as a symmetric rational
expression over the per-box coordinate extrema. -/
theorem val_boxes_intersect (b1 b2 : List (Frac × Frac)) :
    (boxes_intersect b1 b2).val =
      max 0 (min (maxCoord (xsOf b1)).val (maxCoord (xsOf b2)).val -
             max (minCoord (xsOf b1)).val (minCoord (xsOf b2)).val) *
      max 0 (min (maxCoord (ysOf b1)).val (maxCoord (ysOf b2)).val -
             max (minCoord (ysOf b1)).val (minCoord (ysOf b2)).val) := by
  simp only [boxes_intersect]
  rw [Frac.val_mul, val_posPart, val_posPart, Frac.val_sub, Frac.val_sub,
    val_minPair, val_minPair, val_maxPair, val_maxPair]

theorem val_boxes_intersect_comm (b1 b2 : List (Frac × Frac)) :
    (boxes_intersect b1 b2).val = (boxes_intersect b2 b1).val := by
  rw [val_boxes_intersect, val_boxes_intersect,
    min_comm ((maxCoord (xsOf b1)).val), max_comm ((minCoord (xsOf b1)).val),
    min_comm ((maxCoord (ysOf b1)).val), max_comm ((minCoord (ysOf b1)).val)]

/-- `_boxes_overlap` is symmetric: the IoU formula does not depend on
the order of its two boxes. -/
theorem boxes_overlap_symm (b1 b2 : List (Frac × Frac)) :
    boxes_overlap b1 b2 = boxes_overlap b2 b1 := by
  simp only [boxes_overlap]
  have hI := val_boxes_intersect_comm b1 b2
  have hU : ((((box_area b1).add (box_area b2))).sub (boxes_intersect b1 b2)).val =
      ((((box_area b2).add (box_area b1))).sub (boxes_intersect b2 b1)).val := by
    rw [Frac.val_sub, Frac.val_sub, Frac.val_add, Frac.val_add, hI,
      add_comm ((box_area b1).val)]
  have hc : (Frac.ofInt 0).blt (((box_area b1).add (box_area b2)).sub
      (boxes_intersect b1 b2)) = (Frac.ofInt 0).blt
        (((box_area b2).add (box_area b1)).sub (boxes_intersect b2 b1)) :=
    Frac.blt_congr rfl hU
  rcases hu : (Frac.ofInt 0).blt (((box_area b1).add (box_area b2)).sub
      (boxes_intersect b1 b2)) with _ | _
  · rw [if_neg Bool.false_ne_true,
      if_neg (by rw [← hc, hu]; exact Bool.false_ne_true)]
  · have hu2 : (Frac.ofInt 0).blt (((box_area b2).add (box_area b1)).sub
        (boxes_intersect b2 b1)) = true := by rw [← hc, hu]
    rw [if_pos rfl, if_pos hu2]
    have hupos : (0:ℚ) < ((((box_area b1).add (box_area b2))).sub
        (boxes_intersect b1 b2)).val := by
      have := (Frac.blt_iff _ _).mp hu
      rw [Frac.val_ofInt] at this
      exact_mod_cast this
    have hupos2 : (0:ℚ) < ((((box_area b2).add (box_area b1))).sub
        (boxes_intersect b2 b1)).val := by rw [← hU]; exact hupos
    apply Frac.blt_congr rfl
    rw [Frac.val_div (Frac.num_ne_zero_of_val_pos hupos),
      Frac.val_div (Frac.num_ne_zero_of_val_pos hupos2), hI, hU]

theorem beq_char_comm (x y : Char) : (x == y) = (y == x) := by
  by_cases h : x = y
  · subst h
    rfl
  · rw [beq_eq_false_iff_ne.mpr h, beq_eq_false_iff_ne.mpr (fun e => h e.symm)]

theorem posMatches_comm : ∀ (a b : List Char), posMatches a b = posMatches b a
  | [], [] => rfl
  | [], _ :: _ => by simp [posMatches, List.zip_nil_right]
  | _ :: _, [] => by simp [posMatches, List.zip_nil_right]
  | x :: xs, y :: ys => by
    simp only [posMatches, List.zip_cons_cons, List.countP_cons]
    have h1 := posMatches_comm xs ys
    simp only [posMatches] at h1
    rw [h1, beq_char_comm x y]

/-- `_text_similar` is symmetric: the longer/shorter split and the
positional match count do not depend on argument order. -/
theorem text_similar_symm (t1 t2 : List Char) :
    text_similar t1 t2 = text_similar t2 t1 := by
  rcases lt_trichotomy t1.length t2.length with h | h | h
  · simp only [text_similar, if_pos h, if_neg (lt_asymm h)]
  · simp only [text_similar, if_neg (by omega : ¬ t2.length < t1.length),
      if_neg (by omega : ¬ t1.length < t2.length)]
    rw [posMatches_comm t2 t1]
    simp only [h]
  · simp only [text_similar, if_pos h, if_neg (lt_asymm h)]

/-- The merge loop's duplicate test is symmetric. -/
theorem is_duplicate_symm (a b : TextDetection) :
    is_duplicate a b = is_duplicate b a := by
  rw [is_duplicate, is_duplicate, boxes_overlap_symm, text_similar_symm]

theorem mem_insertDet {x d : TextDetection} :
    ∀ {l : List TextDetection}, x ∈ insertDet d l → x = d ∨ x ∈ l := by
  intro l
  induction l with
  | nil =>
    intro hx
    simp only [insertDet] at hx
    exact Or.inl (List.mem_singleton.mp hx)
  | cons e es ih =>
    intro hx
    simp only [insertDet] at hx
    split at hx
    · rcases List.mem_cons.mp hx with rfl | hx
      · exact Or.inr (List.mem_cons_self _ _)
      · rcases ih hx with h | h
        · exact Or.inl h
        · exact Or.inr (List.mem_cons_of_mem _ h)
    · rcases List.mem_cons.mp hx with rfl | hx
      · exact Or.inl rfl
      · exact Or.inr hx

theorem mem_pySortDesc {x : TextDetection} :
    ∀ {l : List TextDetection}, x ∈ pySortDesc l → x ∈ l := by
  intro l
  induction l with
  | nil => intro hx; exact hx
  | cons d ds ih =>
    intro hx
    rcases mem_insertDet hx with rfl | hx
    · exact List.mem_cons_self _ _
    · exact List.mem_cons_of_mem _ (ih hx)

theorem sorted_insertDet {d : TextDetection} :
    ∀ {l : List TextDetection},
      l.Pairwise (fun a b => b.conf.ble a.conf = true) →
      (insertDet d l).Pairwise (fun a b => b.conf.ble a.conf = true) := by
  intro l
  induction l with
  | nil =>
    intro _
    exact List.pairwise_singleton _ _
  | cons e es ih =>
    intro h
    obtain ⟨he, hes⟩ := List.pairwise_cons.mp h
    simp only [insertDet]
    split
    · next hblt =>
      rw [List.pairwise_cons]
      refine ⟨?_, ih hes⟩
      intro y hy
      rcases mem_insertDet hy with rfl | hy
      · exact Frac.ble_of_blt hblt
      · exact he y hy
    · next hblt =>
      rw [List.pairwise_cons]
      refine ⟨?_, h⟩
      intro y hy
      rcases List.mem_cons.mp hy with rfl | hy
      · exact Frac.ble_of_not_blt hblt
      · exact Frac.ble_trans (he y hy) (Frac.ble_of_not_blt hblt)

theorem sorted_pySortDesc :
    ∀ (l : List TextDetection),
      (pySortDesc l).Pairwise (fun a b => b.conf.ble a.conf = true) := by
  intro l
  induction l with
  | nil => exact List.Pairwise.nil
  | cons d ds ih => exact sorted_insertDet ih

theorem mergeLoop_subset :
    ∀ (rest merged : List TextDetection) (x : TextDetection),
      x ∈ mergeLoop rest merged → x ∈ merged ∨ x ∈ rest := by
  intro rest
  induction rest with
  | nil =>
    intro merged x hx
    exact Or.inl hx
  | cons d rest ih =>
    intro merged x hx
    simp only [mergeLoop] at hx
    split at hx
    · split at hx
      · rcases ih _ x hx with h | h
        · rcases List.mem_append.mp h with h | h
          · exact Or.inl (List.mem_of_mem_eraseP h)
          · exact Or.inr (by rw [List.mem_singleton.mp h]; exact List.mem_cons_self d rest)
        · exact Or.inr (List.mem_cons_of_mem _ h)
      · rcases ih _ x hx with h | h
        · exact Or.inl h
        · exact Or.inr (List.mem_cons_of_mem _ h)
    · rcases ih _ x hx with h | h
      · rcases List.mem_append.mp h with h | h
        · exact Or.inl h
        · exact Or.inr (List.mem_singleton.mp h ▸ List.mem_cons_self d rest)
      · exact Or.inr (List.mem_cons_of_mem _ h)

theorem mergeLoop_pairwise :
    ∀ (rest merged : List TextDetection),
      (∀ e ∈ merged, ∀ x ∈ rest, x.conf.ble e.conf = true) →
      rest.Pairwise (fun a b => b.conf.ble a.conf = true) →
      merged.Pairwise (fun a b => is_duplicate b a = false) →
      (mergeLoop rest merged).Pairwise (fun a b => is_duplicate b a = false) := by
  intro rest
  induction rest with
  | nil =>
    intro merged _ _ hp
    exact hp
  | cons d rest ih =>
    intro merged hconf hsort hp
    obtain ⟨hd, hrest⟩ := List.pairwise_cons.mp hsort
    simp only [mergeLoop]
    split
    · rename_i e hf
      have he : e ∈ merged := List.mem_of_find?_eq_some hf
      have hble : d.conf.ble e.conf = true :=
        hconf e he d (List.mem_cons_self _ _)
      rw [if_neg (by rw [Frac.blt_asymm hble]; exact Bool.false_ne_true)]
      exact ih merged (fun e2 he2 x hx => hconf e2 he2 x (List.mem_cons_of_mem _ hx))
        hrest hp
    · rename_i hf
      have hnone := List.find?_eq_none.mp hf
      apply ih
      · intro e2 he2 x hx
        rcases List.mem_append.mp he2 with he2 | he2
        · exact hconf e2 he2 x (List.mem_cons_of_mem _ hx)
        · rw [List.mem_singleton.mp he2]
          exact hd x hx
      · exact hrest
      · rw [List.pairwise_append]
        refine ⟨hp, List.pairwise_singleton _ _, ?_⟩
        intro a ha b hb
        rw [List.mem_singleton.mp hb]
        simpa using hnone a ha

/-- C10: the Detection Merge Engine synthesizes nothing — every output
detection is one of the raw inputs — and its output is pairwise
non-duplicate: for no pair of output detections does the bounding-box
overlap ratio exceed 0.5 while the positional text similarity exceeds
0.8 (in either order of the pair). -/
theorem merge_output_subset_and_pairwise_nonduplicate (ds : List TextDetection) :
    (∀ d ∈ merge_detections ds, d ∈ ds) ∧
    (merge_detections ds).Pairwise
      (fun a b => is_duplicate a b = false ∧ is_duplicate b a = false) := by
  cases hds : ds with
  | nil => exact ⟨by simp [merge_detections], by simp [merge_detections]⟩
  | cons d0 rest0 =>
    constructor
    · intro x hx
      have : x ∈ mergeLoop (pySortDesc (d0 :: rest0)) [] := hx
      rcases mergeLoop_subset _ _ x this with h | h
      · exact absurd h (List.not_mem_nil x)
      · exact mem_pySortDesc h
    · have hpw : (mergeLoop (pySortDesc (d0 :: rest0)) []).Pairwise
          (fun a b => is_duplicate b a = false) :=
        mergeLoop_pairwise _ [] (by simp) (sorted_pySortDesc _) List.Pairwise.nil
      exact hpw.imp (fun {a b} h => ⟨(is_duplicate_symm a b).trans h, h⟩)

theorem merge_output_subset_witness :
    detHi cxBoxA ∈ [detHi cxBoxA, detLo cxBoxA] :=
  (merge_output_subset_and_pairwise_nonduplicate [detHi cxBoxA, detLo cxBoxA]).1
    (detHi cxBoxA) (by decide)

/-- C6 (amended): for every pair of boxes whose overlap ratio strictly
exceeds 0.5 (the code's `> 0.5` test, i.e. `boxes_overlap`), the merge
of the 0.91-confidence detection `"14.5995,120.9842"` and the
0.60-confidence detection `"14.5995,120.9642"` retains only the
0.91-confidence detection: their positional text similarity is 15/16 >
0.8, so the duplicate test fires and the lower-confidence entry is
dropped without adding a second entry. -/
theorem merge_retains_higher_confidence_of_strict_duplicates
    (b1 b2 : List (Frac × Frac)) (h : boxes_overlap b1 b2 = true) :
    merge_detections [detHi b1, detLo b2] = [detHi b1] := by
  have h21 : boxes_overlap b2 b1 = true := by rw [boxes_overlap_symm]; exact h
  have hdup : is_duplicate (detLo b2) (detHi b1) = true := by
    show (boxes_overlap b2 b1 && text_similar (toCs "14.5995,120.9642")
      (toCs "14.5995,120.9842")) = true
    rw [h21]
    decide
  have hconfblt : (detHi b1).conf.blt (detLo b2).conf = false := by
    show (Frac.mk 91 100 (by decide)).blt (Frac.mk 60 100 (by decide)) = false
    decide
  have hsort : pySortDesc [detHi b1, detLo b2] = [detHi b1, detLo b2] := by
    simp only [pySortDesc, insertDet, hconfblt, Bool.false_eq_true, if_false]
  show mergeLoop (pySortDesc [detHi b1, detLo b2]) [] = [detHi b1]
  rw [hsort]
  simp only [mergeLoop, List.find?, List.nil_append, hdup, hconfblt,
    Bool.false_eq_true, if_false, if_true]

theorem merge_retains_higher_confidence_witness :
    merge_detections [detHi cxBoxA, detLo cxBoxA] = [detHi cxBoxA] :=
  merge_retains_higher_confidence_of_strict_duplicates cxBoxA cxBoxA (by decide)

/-- C6 counterexample: with bounding boxes of overlap ratio exactly 0.5
(so "≥ 0.5" holds but the code's strict "> 0.5" does not) and text
similarity 15/16 ≥ 0.8, the Merge Engine keeps BOTH detections — the
claim that it retains only the 0.91-confidence detection for every pair
with overlap ratio ≥ 0.5 and similarity ≥ 0.8 is false. -/
theorem merge_boundary_overlap_keeps_both :
    (overlap_frac cxBoxA cxBoxB).val = 1/2 ∧
    posMatches (toCs "14.5995,120.9842") (toCs "14.5995,120.9642") = 15 ∧
    (4/5 : ℚ) ≤ 15/16 ∧
    merge_detections [detHi cxBoxA, detLo cxBoxB] = [detHi cxBoxA, detLo cxBoxB] ∧
    merge_detections [detHi cxBoxA, detLo cxBoxB] ≠ [detHi cxBoxA] := by
  refine ⟨?_, by decide, by norm_num, by decide, by decide⟩
  have h : overlap_frac cxBoxA cxBoxB = Frac.mk 1 2 (by decide) := by decide
  rw [h, Frac.val]
  norm_num

